import Mathlib

/-!
# gator: feed polling and ingestion

A shallow embedding of the polling pipeline of `main.go`
(`handlerAggregate`, `scrapeFeeds`, `fetchFeed`, `extractAnchor`) and the
properties of it that the specification states.

Conventions of the embedding.

* A Go `error` is a message string; a function returning only `error`
  returns `Option Error` (`none` is `nil`), a function returning
  `(T, error)` returns `Except Error T`.
* Everything outside the repository's own code that the pipeline calls
  (the network, the XML and HTML parsers, `time`, `uuid`) is a field of
  `Env`; the generated `database.Queries` methods are the fields of
  `Queries`, over an arbitrary storage type.
* Calls that the properties speak about are recorded, in order, in the
  `trace` of the `World`.
-/

namespace Gator

/-! ## Basic types -/

/-- A Go `error` value, identified with its message. -/
abbrev Error := String

/-- A `time.Time`, as the seconds since the zero time `time.Time{}`. -/
abbrev Time := Int

/-- The zero value `time.Time{}`. -/
def Time.zero : Time := 0

/-- A `time.Duration` (a signed count of nanoseconds). -/
abbrev Duration := Int

/-- A `uuid.UUID`. -/
abbrev UUID := Nat

/-- The struct `RSSItem` of `main.go`. -/
structure RSSItem where
  Title : String
  Link : String
  Description : String
  PubDate : String
deriving DecidableEq, Repr

/-- The anonymous struct of the field `Channel` of `RSSFeed`. -/
structure RSSChannel where
  Title : String
  Link : String
  Description : String
  Item : List RSSItem
deriving DecidableEq, Repr

/-- The struct `RSSFeed` of `main.go`. -/
structure RSSFeed where
  Channel : RSSChannel
deriving DecidableEq, Repr

/-- The struct `Anchor` of `main.go`. -/
structure Anchor where
  Href : String
  Target : String
  Text : String
deriving DecidableEq, Repr

/-- The struct `Command` of `main.go`. -/
structure Command where
  Name : String
  Args : List String
deriving DecidableEq, Repr

/-- The constant `AGGR_EXPECT_ARGS` of `main.go`. -/
def AGGR_EXPECT_ARGS : Nat := 1

/-! ## The HTML tree that `goquery` works on

`extractAnchor` hands its argument to `goquery.NewDocumentFromReader` and
walks the resulting `golang.org/x/net/html` tree.  A `*html.Node` is
embedded with its `FirstChild` and `NextSibling` pointers, `nil` being the
nil pointer, so that a list of children is the sibling chain of the first
child. -/

/-- The node types of `html.NodeType`. -/
inductive NodeType where
  | ErrorNode
  | TextNode
  | DocumentNode
  | ElementNode
  | CommentNode
  | DoctypeNode
deriving DecidableEq, Repr

/-- An `html.Attribute`. -/
structure Attribute where
  Key : String
  Val : String
deriving DecidableEq, Repr

/-- An `*html.Node`: `nil`, or a node with its type, data (the tag name of
an element, the text of a text node), attributes, first child and next
sibling. -/
inductive Node where
  | nil : Node
  | node (Typ : NodeType) (Data : String) (Attr : List Attribute)
      (FirstChild NextSibling : Node) : Node
deriving DecidableEq, Repr

/-- The selector of a tag name: an element node whose `Data` is the tag. -/
def matchesTag (tag : String) (Typ : NodeType) (Data : String) : Bool :=
  decide (Typ = NodeType.ElementNode) && decide (Data = tag)

/-- The elements with the given tag in the sibling chain starting at the
node and in everything below it, in document order (a node first, then its
descendants, then its following siblings). -/
def matchChain (tag : String) : Node → List Node
  | Node.nil => []
  | Node.node t d a c s =>
    (if matchesTag tag t d then [Node.node t d a c Node.nil] else [])
      ++ matchChain tag c ++ matchChain tag s

/-- The loop of goquery's `findWithMatcher` over the children of the root:
every child that is an element contributes itself and its descendants that
match. -/
def findChildren (tag : String) : Node → List Node
  | Node.nil => []
  | Node.node t d a c s =>
    (if t = NodeType.ElementNode
      then (if matchesTag tag t d then [Node.node t d a c Node.nil] else [])
        ++ matchChain tag c
      else [])
      ++ findChildren tag s

/-- The method `doc.Find(tag)` for a tag selector: the matched elements
among the descendants of the document root, in document order.  A matched
element is returned cut off from its siblings. -/
def Find (doc : Node) (tag : String) : List Node :=
  match doc with
  | Node.nil => []
  | Node.node _ _ _ c _ => findChildren tag c

/-- The method `s.Attr(name)` on a selection of one element: the value of the
first attribute with that key and `true`, or the empty string and `false`. -/
def Attr (s : Node) (attrName : String) : String × Bool :=
  match s with
  | Node.nil => ("", false)
  | Node.node _ _ attrs _ _ =>
    match attrs.find? (fun a => decide (a.Key = attrName)) with
    | some a => (a.Val, true)
    | none => ("", false)

/-- The text of a sibling chain: the data of every text node in it and
below it, in document order. -/
def textChain : Node → String
  | Node.nil => ""
  | Node.node t d _ c s =>
    (if t = NodeType.TextNode then d else "") ++ textChain c ++ textChain s

/-- The method `s.Text()` on a selection of one element: the combined text
of the element and its descendants. -/
def Text (s : Node) : String :=
  match s with
  | Node.nil => ""
  | Node.node t d _ c _ =>
    (if t = NodeType.TextNode then d else "") ++ textChain c

/-! ## The environment -/

/-- What the pipeline calls outside the repository.

* `NewRequest`, `ClientDo`, `ReadAll`: the three fallible steps of the HTTP
  GET in `fetchFeed` (`http.NewRequestWithContext`, `client.Do`,
  `io.ReadAll`);
* `XmlUnmarshal`: `xml.Unmarshal` into an `RSSFeed`;
* `UnescapeString`: `html.UnescapeString`;
* `NewDocumentFromReader`: `goquery.NewDocumentFromReader` on a string
  reader;
* `TimeParse`: `time.Parse layout value`;
* `ParseDuration`: `time.ParseDuration`;
* `Now`: the successive readings of `time.Now()`;
* `NewUUID`: the successive results of `uuid.New()`. -/
structure Env where
  NewRequest : String → Except Error String
  ClientDo : String → Except Error String
  ReadAll : String → Except Error String
  XmlUnmarshal : String → Except Error RSSFeed
  UnescapeString : String → String
  NewDocumentFromReader : String → Except Error Node
  TimeParse : String → String → Except Error Time
  ParseDuration : String → Except Error Duration
  Now : Nat → Time
  NewUUID : Nat → UUID

/-! ## extractAnchor -/

/-- The callback of `Each` in `extractAnchor`: the anchor read off one
matched element. -/
def anchorOf (s : Node) : Anchor :=
  { Href := (Attr s "href").1, Target := (Attr s "target").1, Text := Text s }

/-- The function `extractAnchor` of `main.go`: parse the markup, then run
over every `a` element in document order, each one overwriting the variable
`anchor`, which starts as the zero `Anchor`. -/
def extractAnchor (env : Env) (html : String) : Except Error Anchor :=
  match env.NewDocumentFromReader html with
  | Except.error err => Except.error err
  | Except.ok doc =>
    Except.ok ((Find doc "a").foldl (fun _ s => anchorOf s)
      { Href := "", Target := "", Text := "" })

/-! ## The storage interface -/

/-- A row of the table `feeds` (`database.Feed`); `LastFetchedAt` is the
nullable time of the last poll. -/
structure Feed where
  ID : UUID
  CreatedAt : Time
  UpdatedAt : Time
  Name : String
  Url : String
  UserID : UUID
  LastFetchedAt : Option Time
deriving DecidableEq, Repr

/-- A row of the table `posts` (`database.Post`), with the fields that
`printPost` reads. -/
structure Post where
  ID : UUID
  CreatedAt : Time
  UpdatedAt : Time
  Title : String
  Url : String
  Description : String
  PublishedAt : Time
  FeedID : UUID
deriving DecidableEq, Repr

/-- The struct `database.MarkFeedFetchedParams`, as `scrapeFeeds` fills it. -/
structure MarkFeedFetchedParams where
  ID : UUID
  UpdatedAt : Time
deriving DecidableEq, Repr

/-- The struct `database.CreatePostParams`, as `scrapeFeeds` fills it. -/
structure CreatePostParams where
  ID : UUID
  CreatedAt : Time
  UpdatedAt : Time
  Title : String
  Url : String
  Description : String
  PublishedAt : Time
  FeedID : UUID
deriving DecidableEq, Repr

/-- The methods of `*database.Queries` that the polling pipeline calls, over a
storage of type `σ`.  The two reads leave the storage as it is; the two
writes return the storage after the call. -/
structure Queries (σ : Type) where
  GetNextFeedToFetch : σ → Except Error Feed
  MarkFeedFetched : σ → MarkFeedFetchedParams → Option Error × σ
  GetPostByUrl : σ → String → Except Error Post
  CreatePost : σ → CreatePostParams → Except Error Post × σ

/-! ## The world and its trace -/

/-- The calls and the output that the pipeline makes, in the order it makes
them. -/
inductive Event where
  | GetNextFeedToFetch
  | MarkFeedFetched (arg : MarkFeedFetchedParams)
  | FetchFeed (feedURL : String)
  | GetPostByUrl (url : String)
  | ExtractAnchor (html : String)
  | CreatePost (arg : CreatePostParams)
  | Print (text : String)
  | PrintFetchingEvery (d : Duration)
deriving DecidableEq, Repr

/-- The state that the pipeline runs in: the storage behind `s.Db`, how many
times the clock and the UUID generator have been read, and the trace so far.
`main` calls every handler with `&cliState`, so that `s.Db` and
`cliState.Db` in `scrapeFeeds` are one and the same storage. -/
structure World (σ : Type) where
  db : σ
  clock : Nat
  uuids : Nat
  trace : List Event

/-- Append an event to the trace. -/
def World.log {σ : Type} (w : World σ) (e : Event) : World σ :=
  { w with trace := w.trace ++ [e] }

/-- The result of a handler that has a polling loop in it.  `waiting` is the
loop blocked on `<-ticker.C` when the observed ticks have run out. -/
inductive Outcome where
  | returned (err : Error)
  | panicked (msg : String)
  | waiting
deriving DecidableEq, Repr

/-! ## strings.HasPrefix and strings.HasSuffix

Go compares bytes.  The two patterns that `scrapeFeeds` uses are ASCII, for
which a match on the bytes of a UTF-8 string is a match on its characters. -/

/-- The function `strings.HasPrefix`. -/
def HasPrefix (s pre : String) : Bool :=
  pre.data.isPrefixOf s.data

/-- The function `strings.HasSuffix`. -/
def HasSuffix (s suf : String) : Bool :=
  suf.data.reverse.isPrefixOf s.data.reverse

/-! ## fetchFeed -/

/-- The function `unescapeFeedStrings` of `main.go`. -/
def unescapeFeedStrings (env : Env) (feed : RSSFeed) : RSSFeed :=
  { Channel :=
    { feed.Channel with
      Title := env.UnescapeString feed.Channel.Title
      Description := env.UnescapeString feed.Channel.Description
      Item := feed.Channel.Item.map (fun item =>
        { item with
          Title := env.UnescapeString item.Title
          Description := env.UnescapeString item.Description }) } }

/-- The function `fetchFeed` of `main.go`: every failing step returns its
error; the document that parses is unescaped (its channel title and
description twice, as in the source). -/
def fetchFeed (env : Env) (feedURL : String) : Except Error RSSFeed :=
  match env.NewRequest feedURL with
  | Except.error err => Except.error err
  | Except.ok req =>
    match env.ClientDo req with
    | Except.error err => Except.error err
    | Except.ok resp =>
      match env.ReadAll resp with
      | Except.error err => Except.error err
      | Except.ok body =>
        match env.XmlUnmarshal body with
        | Except.error xmlErr => Except.error xmlErr
        | Except.ok feed =>
          Except.ok (unescapeFeedStrings env
            { Channel :=
              { feed.Channel with
                Title := env.UnescapeString feed.Channel.Title
                Description := env.UnescapeString feed.Channel.Description } })

/-! ## scrapeFeeds -/

/-- The layout that `scrapeFeeds` passes to `time.Parse`. -/
def pubDateLayout : String := "Mon, 02 Jan 2006 15:04:05 -0700"

/-- The date step of the loop body (lines 465-468): `time.Parse` returns the
zero time together with its error, and the error is printed. -/
def parsePubDate {σ : Type} (env : Env) (w : World σ) (pubDate : String) :
    Time × World σ :=
  match env.TimeParse pubDateLayout pubDate with
  | Except.ok t => (t, w)
  | Except.error err => (Time.zero, w.log (Event.Print (err ++ "\n")))

/-- The parameters `parms` of line 481, which read the UUID generator once and
the clock twice. -/
def createPostParams {σ : Type} (env : Env) (fetchedFeed : Feed) (w : World σ)
    (feedItem : RSSItem) (parsedDate : Time) : CreatePostParams :=
  { ID := env.NewUUID w.uuids
    CreatedAt := env.Now w.clock
    UpdatedAt := env.Now (w.clock + 1)
    Title := feedItem.Title
    Url := feedItem.Link
    Description := feedItem.Description
    PublishedAt := parsedDate
    FeedID := fetchedFeed.ID }

/-- The last step of the loop body (lines 481-485): build the parameters, call
`CreatePost`, and print its error if it has one. -/
def createPostStep {σ : Type} (env : Env) (q : Queries σ) (fetchedFeed : Feed)
    (w : World σ) (feedItem : RSSItem) (parsedDate : Time) : World σ :=
  let parms := createPostParams env fetchedFeed w feedItem parsedDate
  let r := q.CreatePost w.db parms
  let w1 : World σ :=
    { db := r.2, clock := w.clock + 2, uuids := w.uuids + 1
      trace := w.trace ++ [Event.CreatePost parms] }
  match r.1 with
  | Except.ok _ => w1
  | Except.error err => w1.log (Event.Print (err ++ "\n"))

/-- The body of the loop over the items in `scrapeFeeds` (lines 460-486) for
one item.  The first component is `some err` when the body returns `err`
from `scrapeFeeds`, and `none` when the loop goes on to the next item.  The
writes to `feedItem` are visible only to the rest of the body: the document
is dropped when `scrapeFeeds` returns. -/
def scrapeItem {σ : Type} (env : Env) (q : Queries σ) (fetchedFeed : Feed)
    (w : World σ) (feedItem : RSSItem) : Option Error × World σ :=
  let w1 := w.log (Event.GetPostByUrl feedItem.Link)
  match q.GetPostByUrl w.db feedItem.Link with
  | Except.ok _ => (none, w1)
  | Except.error _ =>
    let d := parsePubDate env w1 feedItem.PubDate
    if HasPrefix feedItem.Description "<a " && HasSuffix feedItem.Description "</a>" then
      let w2 := d.2.log (Event.ExtractAnchor feedItem.Description)
      match extractAnchor env feedItem.Description with
      | Except.error err => (some err, w2)
      | Except.ok anchor =>
        (none, createPostStep env q fetchedFeed w2
          { feedItem with Description := anchor.Text, Link := anchor.Href } d.1)
    else
      (none, createPostStep env q fetchedFeed d.2 feedItem d.1)

/-- The loop over the items in `scrapeFeeds` (lines 459-487), in document
order; it stops at the first item whose body returns an error. -/
def scrapeItems {σ : Type} (env : Env) (q : Queries σ) (fetchedFeed : Feed) :
    World σ → List RSSItem → Option Error × World σ
  | w, [] => (none, w)
  | w, feedItem :: rest =>
    match scrapeItem env q fetchedFeed w feedItem with
    | (some err, w1) => (some err, w1)
    | (none, w1) => scrapeItems env q fetchedFeed w1 rest

/-- The function `scrapeFeeds` of `main.go`. -/
def scrapeFeeds {σ : Type} (env : Env) (q : Queries σ) (w : World σ) :
    Option Error × World σ :=
  let w1 := w.log Event.GetNextFeedToFetch
  match q.GetNextFeedToFetch w.db with
  | Except.error err => (some err, w1)
  | Except.ok fetchedFeed =>
    let arg : MarkFeedFetchedParams :=
      { ID := fetchedFeed.ID, UpdatedAt := env.Now w.clock }
    let m := q.MarkFeedFetched w.db arg
    let w2 : World σ :=
      { db := m.2, clock := w.clock + 1, uuids := w.uuids
        trace := w1.trace ++ [Event.MarkFeedFetched arg] }
    match m.1 with
    | some err => (some err, w2)
    | none =>
      let w3 := w2.log (Event.FetchFeed fetchedFeed.Url)
      match fetchFeed env fetchedFeed.Url with
      | Except.error err => (some err, w3)
      | Except.ok fetchedRSSFeed =>
        let w4 := w3.log (Event.Print ("Items for feed \x27" ++ fetchedFeed.Name ++ "\x27\n"))
        if 0 < fetchedRSSFeed.Channel.Item.length then
          scrapeItems env q fetchedFeed w4 fetchedRSSFeed.Channel.Item
        else
          (none, w4.log (Event.Print "\tNo items for this feed.\n"))

/-! ## handlerAggregate -/

/-- The loop `for ; ; <-ticker.C` of `handlerAggregate`: the body runs at
once, and again after every tick; `ticks` is the number of ticks that arrive
while the loop is observed.  The loop is left only by returning the error of
`scrapeFeeds`. -/
def pollLoop {σ : Type} (env : Env) (q : Queries σ) :
    Nat → World σ → Outcome × World σ
  | 0, w =>
    match scrapeFeeds env q (w.log (Event.Print "Scraping now...\n")) with
    | (some err, w1) => (Outcome.returned err, w1)
    | (none, w1) => (Outcome.waiting, w1)
  | ticks + 1, w =>
    match scrapeFeeds env q (w.log (Event.Print "Scraping now...\n")) with
    | (some err, w1) => (Outcome.returned err, w1)
    | (none, w1) => pollLoop env q ticks w1

/-- The function `handlerAggregate` of `main.go`.  `time.NewTicker` panics
when its duration is not positive. -/
def handlerAggregate {σ : Type} (env : Env) (q : Queries σ) (ticks : Nat)
    (w : World σ) (cmd : Command) : Outcome × World σ :=
  if AGGR_EXPECT_ARGS ≤ cmd.Args.length then
    match env.ParseDuration (cmd.Args.getD 0 "") with
    | Except.error err => (Outcome.returned err, w)
    | Except.ok timeBetweenRequests =>
      let w1 := w.log (Event.PrintFetchingEvery timeBetweenRequests)
      if timeBetweenRequests ≤ 0 then
        (Outcome.panicked "non-positive interval for NewTicker", w1)
      else
        pollLoop env q ticks w1
  else
    (Outcome.returned "error: expected time between requests but none specified", w)

/-- The world after `n` rounds of the polling loop that all returned no
error, starting in `w`; `none` when one of these rounds returned an error. -/
def successfulRounds {σ : Type} (env : Env) (q : Queries σ) :
    Nat → World σ → Option (World σ)
  | 0, w => some w
  | n + 1, w =>
    match scrapeFeeds env q (w.log (Event.Print "Scraping now...\n")) with
    | (some _, _) => none
    | (none, w1) => successfulRounds env q n w1

/-! ## The storage -/

/-- The storage behind `database.Queries`: the rows of the tables `feeds`
and `posts`, in insertion order. -/
structure Storage where
  feeds : List Feed
  posts : List Post
deriving DecidableEq, Repr

/-- Modelled from the spec: the ordering of the query behind
`GetNextFeedToFetch`, whose SQL is not part of the sources.  A feed that was
never polled comes before every polled one, and polled feeds are ordered by
their last poll ("the feed with the oldest (or null) last-polled
timestamp"). -/
def polledBefore (a b : Option Time) : Bool :=
  match a, b with
  | none, none => false
  | none, some _ => true
  | some _, none => false
  | some x, some y => decide (x < y)

/-- Modelled from the spec: the query `GetNextFeedToFetch`, whose SQL is not
part of the sources: the first feed, in row order, among those with the
least last-poll time, and `sql.ErrNoRows` when there is no feed. -/
def Storage.GetNextFeedToFetch (db : Storage) : Except Error Feed :=
  match db.feeds with
  | [] => Except.error "sql: no rows in result set"
  | f :: fs =>
    Except.ok (fs.foldl
      (fun best g => if polledBefore g.LastFetchedAt best.LastFetchedAt then g else best) f)

/-- Modelled from the spec: the query `MarkFeedFetched`, whose SQL is not part
of the sources: the feed with the given identity gets the given time as its
last-poll and update time ("update that feed's last-polled timestamp"),
every other row stays as it is. -/
def Storage.MarkFeedFetched (db : Storage) (arg : MarkFeedFetchedParams) :
    Option Error × Storage :=
  (none,
    { db with
      feeds := db.feeds.map (fun g =>
        if g.ID = arg.ID then
          { g with LastFetchedAt := some arg.UpdatedAt, UpdatedAt := arg.UpdatedAt }
        else g) })

/-- Modelled from the spec: the query `GetPostByUrl`, whose SQL is not part of
the sources.  It receives the link alone, and finds a post whose stored `Url`
is that link, whatever its feed; `sql.ErrNoRows` when there is none. -/
def Storage.GetPostByUrl (db : Storage) (url : String) : Except Error Post :=
  match db.posts.find? (fun p => decide (p.Url = url)) with
  | some p => Except.ok p
  | none => Except.error "sql: no rows in result set"

/-- The row that `CreatePost` inserts for its parameters. -/
def CreatePostParams.toPost (arg : CreatePostParams) : Post :=
  { ID := arg.ID, CreatedAt := arg.CreatedAt, UpdatedAt := arg.UpdatedAt
    Title := arg.Title, Url := arg.Url, Description := arg.Description
    PublishedAt := arg.PublishedAt, FeedID := arg.FeedID }

/-- Modelled from the spec: the query `CreatePost`, whose SQL is not part of
the sources: it succeeds and appends the post it is given. -/
def Storage.CreatePost (db : Storage) (arg : CreatePostParams) :
    Except Error Post × Storage :=
  (Except.ok arg.toPost, { db with posts := db.posts ++ [arg.toPost] })

/-- Modelled from the spec: the four queries over `Storage`. -/
def storageQueries : Queries Storage :=
  { GetNextFeedToFetch := Storage.GetNextFeedToFetch
    MarkFeedFetched := Storage.MarkFeedFetched
    GetPostByUrl := Storage.GetPostByUrl
    CreatePost := Storage.CreatePost }

/-! ## Properties that the theorems speak about -/

/-- No two posts of the same feed have the same `Url`. -/
def LinkUniquePerFeed (posts : List Post) : Prop :=
  posts.Pairwise (fun p r => ¬ (p.FeedID = r.FeedID ∧ p.Url = r.Url))

instance (posts : List Post) : Decidable (LinkUniquePerFeed posts) := by
  unfold LinkUniquePerFeed
  infer_instance

/-- The events of the loop over the items: everything but the selection, the
marking and the fetch of the feed. -/
def Event.isItemEvent : Event → Bool
  | Event.GetNextFeedToFetch => false
  | Event.MarkFeedFetched _ => false
  | Event.FetchFeed _ => false
  | Event.PrintFetchingEvery _ => false
  | Event.GetPostByUrl _ => true
  | Event.ExtractAnchor _ => true
  | Event.CreatePost _ => true
  | Event.Print _ => true

/-- Going from the world `w` to the world `w1`, `CreatePost` was called with
the parameters `parms` on the storage of `w`, and the storage of `w1` is the
one that this call returned. -/
def Persisted {σ : Type} (q : Queries σ) (w w1 : World σ) (parms : CreatePostParams) : Prop :=
  w1.db = (q.CreatePost w.db parms).2 ∧
    ∃ before after, w1.trace = w.trace ++ before ++ [Event.CreatePost parms] ++ after

/-- The trace `t1` is the trace `t` followed by item events only. -/
def ItemExt (t t1 : List Event) : Prop :=
  ∃ evs, t1 = t ++ evs ∧ ∀ e ∈ evs, Event.isItemEvent e = true

/-! ## A concrete environment

The closed statements below are evaluated in this environment.  Its strings
contain no character reference, so that unescaping leaves them as they
are. -/

/-- A description that is one anchor element. -/
def anchorDesc : String :=
  "<a href=\"https://a.example/full\" target=\"_blank\">Read more</a>"

/-- The tree that the HTML parser builds for `anchorDesc`: the document, with
`html`, an empty `head`, and a `body` holding the anchor and its text. -/
def anchorDoc : Node :=
  Node.node NodeType.DocumentNode "" []
    (Node.node NodeType.ElementNode "html" []
      (Node.node NodeType.ElementNode "head" [] Node.nil
        (Node.node NodeType.ElementNode "body" []
          (Node.node NodeType.ElementNode "a"
            [{ Key := "href", Val := "https://a.example/full" },
             { Key := "target", Val := "_blank" }]
            (Node.node NodeType.TextNode "Read more" [] Node.nil Node.nil)
            Node.nil)
          Node.nil))
      Node.nil)
    Node.nil

/-- A description with two anchor elements, one after the other; it starts
with the opening tag of the first and ends with the closing tag of the
second. -/
def twoAnchorDesc : String :=
  "<a href=\"https://a.example/1\" target=\"_self\">one</a><a href=\"https://a.example/2\" target=\"_top\">two</a>"

/-- The tree that the HTML parser builds for `twoAnchorDesc`. -/
def twoAnchorDoc : Node :=
  Node.node NodeType.DocumentNode "" []
    (Node.node NodeType.ElementNode "html" []
      (Node.node NodeType.ElementNode "head" [] Node.nil
        (Node.node NodeType.ElementNode "body" []
          (Node.node NodeType.ElementNode "a"
            [{ Key := "href", Val := "https://a.example/1" },
             { Key := "target", Val := "_self" }]
            (Node.node NodeType.TextNode "one" [] Node.nil Node.nil)
            (Node.node NodeType.ElementNode "a"
              [{ Key := "href", Val := "https://a.example/2" },
               { Key := "target", Val := "_top" }]
              (Node.node NodeType.TextNode "two" [] Node.nil Node.nil)
              Node.nil))
          Node.nil))
      Node.nil)
    Node.nil

/-- The markup `s` inside `n` opening `div` tags. -/
def nestedDivs : Nat → String → String
  | 0, s => s
  | n + 1, s => "<div>" ++ nestedDivs n s

/-- A description in the shape of an anchor with 600 elements open inside
it.  From v0.45.0 on, `golang.org/x/net/html` bounds the stack of open
elements by 512 and returns an error on such markup, and with it
`goquery.NewDocumentFromReader`. -/
def rejectedDesc : String :=
  "<a href=\"https://b.example/deep\">" ++ nestedDivs 600 "</a>"

/-- The tree that the HTML parser builds for text without markup: the
document, with `html`, an empty `head`, and a `body` holding the text. -/
def textDoc (text : String) : Node :=
  Node.node NodeType.DocumentNode "" []
    (Node.node NodeType.ElementNode "html" []
      (Node.node NodeType.ElementNode "head" [] Node.nil
        (Node.node NodeType.ElementNode "body" []
          (Node.node NodeType.TextNode text [] Node.nil Node.nil)
          Node.nil))
      Node.nil)
    Node.nil

/-- The feed document served at `https://a.example/rss`: one item, whose
description is `anchorDesc`. -/
def anchorFeedDoc : RSSFeed :=
  { Channel :=
    { Title := "A", Link := "https://a.example", Description := "feed a"
      Item := [{ Title := "First", Link := "https://a.example/1"
                 Description := anchorDesc
                 PubDate := "Mon, 02 Jan 2006 15:04:05 -0700" }] } }

/-- The feed document served at `https://b.example/rss`: an item whose
description is `rejectedDesc`, followed by an item of plain text. -/
def rejectedFeedDoc : RSSFeed :=
  { Channel :=
    { Title := "B", Link := "https://b.example", Description := "feed b"
      Item := [{ Title := "Deep", Link := "https://b.example/1"
                 Description := rejectedDesc, PubDate := "not-a-date" },
               { Title := "Plain", Link := "https://b.example/2"
                 Description := "plain text", PubDate := "not-a-date" }] } }

/-- An environment: the host `down.example` refuses the connection, the two
documents above are served at their addresses, the HTML parser builds the
trees above for the two anchor descriptions, rejects `rejectedDesc` and
takes every other string as text without markup, the date of the layout
itself parses to its instant, the clock and the UUID generator count
upwards. -/
def demoEnv : Env :=
  { NewRequest := fun feedURL => Except.ok feedURL
    ClientDo := fun req =>
      if req = "https://down.example/rss" then
        Except.error "dial tcp: connect: connection refused"
      else Except.ok req
    ReadAll := fun resp => Except.ok resp
    XmlUnmarshal := fun body =>
      if body = "https://a.example/rss" then Except.ok anchorFeedDoc
      else if body = "https://b.example/rss" then Except.ok rejectedFeedDoc
      else Except.error "EOF"
    UnescapeString := fun s => s
    NewDocumentFromReader := fun html =>
      if html = anchorDesc then Except.ok anchorDoc
      else if html = twoAnchorDesc then Except.ok twoAnchorDoc
      else if html = rejectedDesc then
        Except.error "html: open stack of elements exceeds 512 nodes"
      else Except.ok (textDoc html)
    TimeParse := fun _ value =>
      if value = "Mon, 02 Jan 2006 15:04:05 -0700" then Except.ok 63271836245
      else Except.error "parsing time: cannot parse as \"Mon\""
    ParseDuration := fun s =>
      if s = "1m" then Except.ok 60000000000
      else if s = "0s" then Except.ok 0
      else if s = "-5s" then Except.ok (-5000000000)
      else Except.error "time: invalid duration"
    Now := fun n => 1000 + n
    NewUUID := fun n => 100 + n }

/-- A feed row with the given identity and address, never polled. -/
def demoFeed (id : UUID) (url : String) : Feed :=
  { ID := id, CreatedAt := 1, UpdatedAt := 1, Name := "feed", Url := url
    UserID := 7, LastFetchedAt := none }

/-- A post row with the given feed and link. -/
def demoPost (feedID : UUID) (url : String) : Post :=
  { ID := 50, CreatedAt := 2, UpdatedAt := 2, Title := "old", Url := url
    Description := "old post", PublishedAt := 2, FeedID := feedID }

/-- The world at the start: the given storage, nothing read, nothing traced. -/
def startWorld (db : Storage) : World Storage :=
  { db := db, clock := 0, uuids := 0, trace := [] }

/-! ## Auxiliary lemmas -/

section Lemmas

variable {σ : Type}

/-- A fold whose step forgets the accumulator ends with the image of the last
element. -/
theorem foldl_overwrite_eq_getLast {α β : Type} (f : α → β) :
    ∀ (l : List α) (init : β) (h : l ≠ []),
      l.foldl (fun _ s => f s) init = f (l.getLast h)
  | [], _, h => absurd rfl h
  | [x], init, _ => rfl
  | x :: y :: l, init, _ => by
    have ih := foldl_overwrite_eq_getLast f (y :: l) (f x) (List.cons_ne_nil y l)
    simpa [List.getLast_cons] using ih

@[simp] theorem World.log_db (w : World σ) (e : Event) : (w.log e).db = w.db := rfl

@[simp] theorem World.log_clock (w : World σ) (e : Event) : (w.log e).clock = w.clock := rfl

@[simp] theorem World.log_uuids (w : World σ) (e : Event) : (w.log e).uuids = w.uuids := rfl

@[simp] theorem World.log_trace (w : World σ) (e : Event) :
    (w.log e).trace = w.trace ++ [e] := rfl

/-- When the feed is selected and marked and its fetch fails, `scrapeFeeds`
returns the error of the fetch, in the world after the marking. -/
theorem scrapeFeeds_of_fetch_error (env : Env) (q : Queries σ) (w : World σ) (f : Feed)
    (err : Error)
    (hsel : q.GetNextFeedToFetch w.db = Except.ok f)
    (hmark : (q.MarkFeedFetched w.db { ID := f.ID, UpdatedAt := env.Now w.clock }).1 = none)
    (hfetch : fetchFeed env f.Url = Except.error err) :
    scrapeFeeds env q w =
      (some err,
        { db := (q.MarkFeedFetched w.db { ID := f.ID, UpdatedAt := env.Now w.clock }).2
          clock := w.clock + 1
          uuids := w.uuids
          trace := w.trace ++ [Event.GetNextFeedToFetch,
            Event.MarkFeedFetched { ID := f.ID, UpdatedAt := env.Now w.clock },
            Event.FetchFeed f.Url] }) := by
  simp [scrapeFeeds, hsel, hmark, hfetch, World.log]

/-- The polling loop returns the first error of `scrapeFeeds`, however many
ticks are still to come. -/
theorem pollLoop_of_scrape_error (env : Env) (q : Queries σ) (ticks : Nat) (w w1 : World σ)
    (err : Error)
    (h : scrapeFeeds env q (w.log (Event.Print "Scraping now...\n")) = (some err, w1)) :
    pollLoop env q ticks w = (Outcome.returned err, w1) := by
  cases ticks <;> simp [pollLoop, h]

/-- A string that starts with a pattern still does when something is
appended to it. -/
theorem HasPrefix_append (a b pre : String) (h : HasPrefix a pre = true) :
    HasPrefix (a ++ b) pre = true := by
  unfold HasPrefix at *
  rw [List.isPrefixOf_iff_prefix] at *
  rw [String.data_append]
  exact h.trans (List.prefix_append _ _)

/-- A string that ends with a pattern still does when something is put in
front of it. -/
theorem HasSuffix_append (a b suf : String) (h : HasSuffix b suf = true) :
    HasSuffix (a ++ b) suf = true := by
  unfold HasSuffix at *
  rw [List.isPrefixOf_iff_prefix] at *
  rw [String.data_append, List.reverse_append]
  exact h.trans (List.prefix_append _ _)

/-- The description `<a href="X" target="Y">TEXT</a>` has the shape that
`scrapeFeeds` tests for. -/
theorem anchor_shape (X Y TEXT : String) :
    (HasPrefix ("<a href=\"" ++ X ++ "\" target=\"" ++ Y ++ "\">" ++ TEXT ++ "</a>") "<a " &&
      HasSuffix ("<a href=\"" ++ X ++ "\" target=\"" ++ Y ++ "\">" ++ TEXT ++ "</a>") "</a>")
      = true := by
  rw [Bool.and_eq_true]
  constructor
  · repeat apply HasPrefix_append
    decide
  · apply HasSuffix_append
    decide

/-- What `createPostStep` does to the storage and to the trace. -/
theorem createPostStep_spec (env : Env) (q : Queries σ) (fetchedFeed : Feed) (w : World σ)
    (feedItem : RSSItem) (parsedDate : Time) :
    (createPostStep env q fetchedFeed w feedItem parsedDate).db =
        (q.CreatePost w.db (createPostParams env fetchedFeed w feedItem parsedDate)).2 ∧
      ∃ after, (createPostStep env q fetchedFeed w feedItem parsedDate).trace =
          w.trace ++ [Event.CreatePost (createPostParams env fetchedFeed w feedItem parsedDate)]
            ++ after ∧
        ∀ e ∈ after, Event.isItemEvent e = true := by
  unfold createPostStep
  cases h : (q.CreatePost w.db (createPostParams env fetchedFeed w feedItem parsedDate)).1 with
  | ok p => exact ⟨by simp [h], [], by simp [h], by simp⟩
  | error err =>
    exact ⟨by simp [h], [Event.Print (err ++ "\n")], by simp [h],
      by simp [Event.isItemEvent]⟩

/-- What `parsePubDate` does to the world: it prints at most one line. -/
theorem parsePubDate_spec (env : Env) (w : World σ) (pubDate : String) :
    (parsePubDate env w pubDate).2.db = w.db ∧
      (parsePubDate env w pubDate).2.clock = w.clock ∧
      (parsePubDate env w pubDate).2.uuids = w.uuids ∧
      ∃ evs, (parsePubDate env w pubDate).2.trace = w.trace ++ evs ∧
        ∀ e ∈ evs, Event.isItemEvent e = true := by
  unfold parsePubDate
  cases h : env.TimeParse pubDateLayout pubDate with
  | ok t => exact ⟨rfl, rfl, rfl, [], by simp, by simp⟩
  | error err =>
    exact ⟨rfl, rfl, rfl, [Event.Print (err ++ "\n")], by simp, by simp [Event.isItemEvent]⟩

/-- The date that `parsePubDate` returns when the string does not parse. -/
theorem parsePubDate_of_error (env : Env) (w : World σ) (pubDate : String) (err : Error)
    (h : env.TimeParse pubDateLayout pubDate = Except.error err) :
    parsePubDate env w pubDate = (Time.zero, w.log (Event.Print (err ++ "\n"))) := by
  simp [parsePubDate, h]

/-- When `createPostStep` runs in a world that has the storage of `w` and a
trace extending the one of `w`, its parameters are persisted from `w`. -/
theorem createPostStep_persisted (env : Env) (q : Queries σ) (fetchedFeed : Feed)
    (w w2 : World σ) (feedItem : RSSItem) (parsedDate : Time) (before : List Event)
    (hdb : w2.db = w.db) (htr : w2.trace = w.trace ++ before) :
    Persisted q w (createPostStep env q fetchedFeed w2 feedItem parsedDate)
      (createPostParams env fetchedFeed w2 feedItem parsedDate) := by
  obtain ⟨h1, after, h2, _⟩ := createPostStep_spec env q fetchedFeed w2 feedItem parsedDate
  refine ⟨by rw [h1, hdb], before, after, ?_⟩
  rw [h2, htr]

/-- The body of the loop for an item whose link is found: `continue`. -/
theorem scrapeItem_of_found (env : Env) (q : Queries σ) (fetchedFeed : Feed) (w : World σ)
    (feedItem : RSSItem) (p : Post) (h : q.GetPostByUrl w.db feedItem.Link = Except.ok p) :
    scrapeItem env q fetchedFeed w feedItem = (none, w.log (Event.GetPostByUrl feedItem.Link)) := by
  simp [scrapeItem, h]

/-- The body of the loop for an item whose link is not found and whose
description has not the shape of an anchor. -/
theorem scrapeItem_of_plain (env : Env) (q : Queries σ) (fetchedFeed : Feed) (w : World σ)
    (feedItem : RSSItem) (e0 : Error)
    (hnew : q.GetPostByUrl w.db feedItem.Link = Except.error e0)
    (hplain : (HasPrefix feedItem.Description "<a " && HasSuffix feedItem.Description "</a>")
      = false) :
    scrapeItem env q fetchedFeed w feedItem =
      (none, createPostStep env q fetchedFeed
        (parsePubDate env (w.log (Event.GetPostByUrl feedItem.Link)) feedItem.PubDate).2
        feedItem
        (parsePubDate env (w.log (Event.GetPostByUrl feedItem.Link)) feedItem.PubDate).1) := by
  simp only [scrapeItem, hnew, hplain]
  simp

/-- The body of the loop for an item whose link is not found and whose
description has the shape of an anchor that `extractAnchor` reads. -/
theorem scrapeItem_of_anchor (env : Env) (q : Queries σ) (fetchedFeed : Feed) (w : World σ)
    (feedItem : RSSItem) (e0 : Error) (anchor : Anchor)
    (hnew : q.GetPostByUrl w.db feedItem.Link = Except.error e0)
    (hshape : (HasPrefix feedItem.Description "<a " && HasSuffix feedItem.Description "</a>")
      = true)
    (hanchor : extractAnchor env feedItem.Description = Except.ok anchor) :
    scrapeItem env q fetchedFeed w feedItem =
      (none, createPostStep env q fetchedFeed
        ((parsePubDate env (w.log (Event.GetPostByUrl feedItem.Link)) feedItem.PubDate).2.log
          (Event.ExtractAnchor feedItem.Description))
        { feedItem with Description := anchor.Text, Link := anchor.Href }
        (parsePubDate env (w.log (Event.GetPostByUrl feedItem.Link)) feedItem.PubDate).1) := by
  simp only [scrapeItem, hnew, hshape, hanchor]
  simp

/-- The body of the loop for an item whose link is not found and whose
description has the shape of an anchor on which `extractAnchor` fails. -/
theorem scrapeItem_of_anchor_error (env : Env) (q : Queries σ) (fetchedFeed : Feed)
    (w : World σ) (feedItem : RSSItem) (e0 err : Error)
    (hnew : q.GetPostByUrl w.db feedItem.Link = Except.error e0)
    (hshape : (HasPrefix feedItem.Description "<a " && HasSuffix feedItem.Description "</a>")
      = true)
    (hanchor : extractAnchor env feedItem.Description = Except.error err) :
    scrapeItem env q fetchedFeed w feedItem =
      (some err,
        (parsePubDate env (w.log (Event.GetPostByUrl feedItem.Link)) feedItem.PubDate).2.log
          (Event.ExtractAnchor feedItem.Description)) := by
  simp only [scrapeItem, hnew, hshape, hanchor]
  simp
/-- Nothing added is an extension. -/
theorem ItemExt.refl (t : List Event) : ItemExt t t :=
  ⟨[], by simp, by simp⟩

/-- Extensions compose. -/
theorem ItemExt.trans {t t1 t2 : List Event} (h1 : ItemExt t t1) (h2 : ItemExt t1 t2) :
    ItemExt t t2 := by
  obtain ⟨a, rfl, ha⟩ := h1
  obtain ⟨b, rfl, hb⟩ := h2
  refine ⟨a ++ b, by simp, ?_⟩
  intro e he
  rcases List.mem_append.mp he with he | he
  · exact ha e he
  · exact hb e he

/-- Logging an item event is an extension. -/
theorem ItemExt.log (w : World σ) (e : Event) (he : Event.isItemEvent e = true) :
    ItemExt w.trace (w.log e).trace :=
  ⟨[e], rfl, by simpa using he⟩

/-- The date step extends the trace by item events. -/
theorem parsePubDate_ext (env : Env) (w : World σ) (pubDate : String) :
    ItemExt w.trace (parsePubDate env w pubDate).2.trace := by
  obtain ⟨_, _, _, evs, h, hevs⟩ := parsePubDate_spec env w pubDate
  exact ⟨evs, h, hevs⟩

/-- The last step of the body extends the trace by item events. -/
theorem createPostStep_ext (env : Env) (q : Queries σ) (fetchedFeed : Feed) (w : World σ)
    (feedItem : RSSItem) (parsedDate : Time) :
    ItemExt w.trace (createPostStep env q fetchedFeed w feedItem parsedDate).trace := by
  obtain ⟨_, after, h, hafter⟩ := createPostStep_spec env q fetchedFeed w feedItem parsedDate
  refine ⟨[Event.CreatePost (createPostParams env fetchedFeed w feedItem parsedDate)] ++ after,
    by rw [h, List.append_assoc], ?_⟩
  intro e he
  rcases List.mem_append.mp he with he | he
  · rw [List.mem_singleton.mp he]
    rfl
  · exact hafter e he

/-- The body of the loop adds only item events to the trace. -/
theorem scrapeItem_trace (env : Env) (q : Queries σ) (fetchedFeed : Feed) (w : World σ)
    (feedItem : RSSItem) :
    ItemExt w.trace (scrapeItem env q fetchedFeed w feedItem).2.trace := by
  have h1 : ItemExt w.trace (w.log (Event.GetPostByUrl feedItem.Link)).trace :=
    ItemExt.log w _ rfl
  have h2 := h1.trans
    (parsePubDate_ext env (w.log (Event.GetPostByUrl feedItem.Link)) feedItem.PubDate)
  cases hget : q.GetPostByUrl w.db feedItem.Link with
  | ok p =>
    rw [scrapeItem_of_found env q fetchedFeed w feedItem p hget]
    exact h1
  | error e0 =>
    cases hshape : (HasPrefix feedItem.Description "<a " &&
        HasSuffix feedItem.Description "</a>") with
    | false =>
      rw [scrapeItem_of_plain env q fetchedFeed w feedItem e0 hget hshape]
      exact h2.trans (createPostStep_ext env q fetchedFeed _ _ _)
    | true =>
      have h3 := h2.trans (ItemExt.log
        (parsePubDate env (w.log (Event.GetPostByUrl feedItem.Link)) feedItem.PubDate).2
        (Event.ExtractAnchor feedItem.Description) rfl)
      cases hanchor : extractAnchor env feedItem.Description with
      | error err =>
        rw [scrapeItem_of_anchor_error env q fetchedFeed w feedItem e0 err hget hshape hanchor]
        exact h3
      | ok anchor =>
        rw [scrapeItem_of_anchor env q fetchedFeed w feedItem e0 anchor hget hshape hanchor]
        exact h3.trans (createPostStep_ext env q fetchedFeed _ _ _)

/-- The loop over the items adds only item events to the trace. -/
theorem scrapeItems_trace (env : Env) (q : Queries σ) (fetchedFeed : Feed) :
    ∀ (items : List RSSItem) (w : World σ),
      ItemExt w.trace (scrapeItems env q fetchedFeed w items).2.trace
  | [], w => ItemExt.refl _
  | feedItem :: rest, w => by
    have h1 := scrapeItem_trace env q fetchedFeed w feedItem
    cases hr : scrapeItem env q fetchedFeed w feedItem with
    | mk r w1 =>
      rw [hr] at h1
      cases r with
      | some err =>
        simp only [scrapeItems, hr]
        exact h1
      | none =>
        simp only [scrapeItems, hr]
        exact h1.trans (scrapeItems_trace env q fetchedFeed rest w1)

/-- The lookup of the storage succeeds exactly when some post has the link. -/
theorem Storage.GetPostByUrl_error_iff (db : Storage) (url : String) :
    (∃ e0, Storage.GetPostByUrl db url = Except.error e0) ↔ ¬ ∃ p ∈ db.posts, p.Url = url := by
  unfold Storage.GetPostByUrl
  cases h : db.posts.find? (fun p => decide (p.Url = url)) with
  | none =>
    simp only [List.find?_eq_none, decide_eq_true_eq] at h
    constructor
    · rintro _ ⟨p, hp, hu⟩
      exact h p hp hu
    · intro _
      exact ⟨_, rfl⟩
  | some p =>
    have hp := List.mem_of_find?_eq_some h
    have hu := List.find?_some h
    simp only [decide_eq_true_eq] at hu
    constructor
    · rintro ⟨e0, he⟩
      cases he
    · intro hn
      exact absurd ⟨p, hp, hu⟩ hn

/-- An extension is at least as long. -/
theorem ItemExt.length_le {t t1 : List Event} (h : ItemExt t t1) : t.length ≤ t1.length := by
  obtain ⟨evs, rfl, _⟩ := h
  simp

/-- The last step of the body makes the trace longer. -/
theorem createPostStep_trace_length (env : Env) (q : Queries σ) (fetchedFeed : Feed)
    (w : World σ) (feedItem : RSSItem) (parsedDate : Time) :
    w.trace.length < (createPostStep env q fetchedFeed w feedItem parsedDate).trace.length := by
  obtain ⟨_, after, h, _⟩ := createPostStep_spec env q fetchedFeed w feedItem parsedDate
  rw [h]
  simp

/-- The loop goes on with the rest of the items when the body returns no
error. -/
theorem scrapeItems_cons_of_none (env : Env) (q : Queries σ) (fetchedFeed : Feed)
    (w : World σ) (feedItem : RSSItem) (rest : List RSSItem)
    (h : (scrapeItem env q fetchedFeed w feedItem).1 = none) :
    scrapeItems env q fetchedFeed w (feedItem :: rest) =
      scrapeItems env q fetchedFeed (scrapeItem env q fetchedFeed w feedItem).2 rest := by
  cases hr : scrapeItem env q fetchedFeed w feedItem with
  | mk r w1 =>
    rw [hr] at h
    simp only at h
    subst h
    simp only [scrapeItems, hr]

/-- The loop stops when the body returns an error. -/
theorem scrapeItems_cons_of_some (env : Env) (q : Queries σ) (fetchedFeed : Feed)
    (w : World σ) (feedItem : RSSItem) (rest : List RSSItem) (err : Error)
    (h : (scrapeItem env q fetchedFeed w feedItem).1 = some err) :
    scrapeItems env q fetchedFeed w (feedItem :: rest) =
      (some err, (scrapeItem env q fetchedFeed w feedItem).2) := by
  cases hr : scrapeItem env q fetchedFeed w feedItem with
  | mk r w1 =>
    rw [hr] at h
    simp only at h
    subst h
    simp only [scrapeItems, hr]

/-- When the feed is selected and marked and its document is fetched,
`scrapeFeeds` prints the name of the feed and runs the loop over the items,
or prints that there are none. -/
theorem scrapeFeeds_of_fetch_ok (env : Env) (q : Queries σ) (w : World σ) (f : Feed)
    (doc : RSSFeed)
    (hsel : q.GetNextFeedToFetch w.db = Except.ok f)
    (hmark : (q.MarkFeedFetched w.db { ID := f.ID, UpdatedAt := env.Now w.clock }).1 = none)
    (hfetch : fetchFeed env f.Url = Except.ok doc) :
    scrapeFeeds env q w =
      if 0 < doc.Channel.Item.length then
        scrapeItems env q f
          { db := (q.MarkFeedFetched w.db { ID := f.ID, UpdatedAt := env.Now w.clock }).2
            clock := w.clock + 1
            uuids := w.uuids
            trace := w.trace ++ [Event.GetNextFeedToFetch,
              Event.MarkFeedFetched { ID := f.ID, UpdatedAt := env.Now w.clock },
              Event.FetchFeed f.Url] ++
              [Event.Print ("Items for feed \x27" ++ f.Name ++ "\x27\n")] }
          doc.Channel.Item
      else
        (none,
          { db := (q.MarkFeedFetched w.db { ID := f.ID, UpdatedAt := env.Now w.clock }).2
            clock := w.clock + 1
            uuids := w.uuids
            trace := w.trace ++ [Event.GetNextFeedToFetch,
              Event.MarkFeedFetched { ID := f.ID, UpdatedAt := env.Now w.clock },
              Event.FetchFeed f.Url] ++
              [Event.Print ("Items for feed \x27" ++ f.Name ++ "\x27\n"),
               Event.Print "\tNo items for this feed.\n"] }) := by
  simp [scrapeFeeds, hsel, hmark, hfetch, World.log]

/-- Markup that ends with a pattern still does inside opening `div` tags. -/
theorem HasSuffix_nestedDivs (n : Nat) (s suf : String) (h : HasSuffix s suf = true) :
    HasSuffix (nestedDivs n s) suf = true := by
  induction n with
  | zero => exact h
  | succ n ih => exact HasSuffix_append _ _ _ ih

/-- The description `rejectedDesc` has the shape that `scrapeFeeds` tests
for. -/
theorem rejectedDesc_shape :
    (HasPrefix rejectedDesc "<a " && HasSuffix rejectedDesc "</a>") = true := by
  rw [Bool.and_eq_true]
  constructor
  · apply HasPrefix_append
    decide
  · apply HasSuffix_append
    apply HasSuffix_nestedDivs
    decide

set_option maxRecDepth 8000 in
/-- In `demoEnv` the HTML parser rejects `rejectedDesc`, and `extractAnchor`
returns its error. -/
theorem extractAnchor_rejectedDesc :
    extractAnchor demoEnv rejectedDesc =
      Except.error "html: open stack of elements exceeds 512 nodes" := by
  have h1 : rejectedDesc ≠ anchorDesc := by decide
  have h2 : rejectedDesc ≠ twoAnchorDesc := by decide
  simp only [extractAnchor, demoEnv, if_neg h1, if_neg h2, if_true]

/-- The loop over the items in `demoEnv`, at an item that is not stored, has
the date `not-a-date` and the description `rejectedDesc`: the loop returns
the error of `extractAnchor` after the lookup, the line about the date and
the call of `extractAnchor`, whatever items follow. -/
theorem scrapeItems_rejectedDesc (fetchedFeed : Feed) (w : World Storage) (title link : String)
    (rest : List RSSItem) (e0 : Error)
    (hnew : storageQueries.GetPostByUrl w.db link = Except.error e0) :
    scrapeItems demoEnv storageQueries fetchedFeed w
        ({ Title := title, Link := link, Description := rejectedDesc
           PubDate := "not-a-date" } :: rest) =
      (some "html: open stack of elements exceeds 512 nodes",
        { db := w.db, clock := w.clock, uuids := w.uuids
          trace := w.trace ++ [Event.GetPostByUrl link,
            Event.Print "parsing time: cannot parse as \"Mon\"\n",
            Event.ExtractAnchor rejectedDesc] }) := by
  have hitem := scrapeItem_of_anchor_error demoEnv storageQueries fetchedFeed w
    { Title := title, Link := link, Description := rejectedDesc, PubDate := "not-a-date" }
    e0 "html: open stack of elements exceeds 512 nodes" hnew rejectedDesc_shape
    extractAnchor_rejectedDesc
  have hdate := parsePubDate_of_error demoEnv (w.log (Event.GetPostByUrl link)) "not-a-date"
    "parsing time: cannot parse as \"Mon\"" rfl
  rw [scrapeItems_cons_of_some demoEnv storageQueries fetchedFeed w _ rest
    "html: open stack of elements exceeds 512 nodes" (by rw [hitem])]
  rw [hitem]
  simp only [hdate]
  simp [World.log]

/-- After `n` rounds without an error the polling loop goes on from the world
that these rounds lead to, with the ticks that are left. -/
theorem pollLoop_after_rounds (env : Env) (q : Queries σ) :
    ∀ (n ticks : Nat) (w wn : World σ), n ≤ ticks →
      successfulRounds env q n w = some wn →
      pollLoop env q ticks w = pollLoop env q (ticks - n) wn
  | 0, ticks, w, wn, _, h => by
    simp only [successfulRounds, Option.some.injEq] at h
    subst h
    rfl
  | n + 1, 0, _, _, hle, _ => absurd hle (by omega)
  | n + 1, ticks + 1, w, wn, hle, h => by
    cases hr : scrapeFeeds env q (w.log (Event.Print "Scraping now...\n")) with
    | mk r w1 =>
      cases r with
      | some err => simp [successfulRounds, hr] at h
      | none =>
        simp only [successfulRounds, hr] at h
        have ih := pollLoop_after_rounds env q n ticks w1 wn (by omega) h
        simp only [pollLoop, hr]
        rw [ih, Nat.add_sub_add_right]

/-- The body of the loop leaves the feeds as they are when `CreatePost`
does. -/
theorem scrapeItem_feeds (env : Env) (q : Queries Storage) (fetchedFeed : Feed)
    (w : World Storage) (feedItem : RSSItem)
    (hcreate : ∀ db parms, (q.CreatePost db parms).2.feeds = db.feeds) :
    (scrapeItem env q fetchedFeed w feedItem).2.db.feeds = w.db.feeds := by
  have hd := (parsePubDate_spec env (w.log (Event.GetPostByUrl feedItem.Link))
    feedItem.PubDate).1
  cases hget : q.GetPostByUrl w.db feedItem.Link with
  | ok p =>
    rw [scrapeItem_of_found env q fetchedFeed w feedItem p hget]
    rfl
  | error e0 =>
    cases hshape : (HasPrefix feedItem.Description "<a " &&
        HasSuffix feedItem.Description "</a>") with
    | false =>
      rw [scrapeItem_of_plain env q fetchedFeed w feedItem e0 hget hshape]
      simp only
      rw [(createPostStep_spec env q fetchedFeed _ _ _).1, hcreate, hd]
      rfl
    | true =>
      cases hanchor : extractAnchor env feedItem.Description with
      | error err =>
        rw [scrapeItem_of_anchor_error env q fetchedFeed w feedItem e0 err hget hshape hanchor]
        simp only [World.log_db]
        rw [hd]
        rfl
      | ok anchor =>
        rw [scrapeItem_of_anchor env q fetchedFeed w feedItem e0 anchor hget hshape hanchor]
        simp only
        rw [(createPostStep_spec env q fetchedFeed _ _ _).1, hcreate]
        simp only [World.log_db]
        rw [hd]
        rfl

/-- The loop over the items leaves the feeds as they are when `CreatePost`
does. -/
theorem scrapeItems_feeds (env : Env) (q : Queries Storage) (fetchedFeed : Feed)
    (hcreate : ∀ db parms, (q.CreatePost db parms).2.feeds = db.feeds) :
    ∀ (items : List RSSItem) (w : World Storage),
      (scrapeItems env q fetchedFeed w items).2.db.feeds = w.db.feeds
  | [], w => rfl
  | feedItem :: rest, w => by
    have h1 := scrapeItem_feeds env q fetchedFeed w feedItem hcreate
    cases hr : scrapeItem env q fetchedFeed w feedItem with
    | mk r w1 =>
      rw [hr] at h1
      cases r with
      | some err =>
        simp only [scrapeItems, hr]
        exact h1
      | none =>
        simp only [scrapeItems, hr]
        rw [scrapeItems_feeds env q fetchedFeed hcreate rest w1]
        exact h1

/-- When the feed is selected and the marking fails, `scrapeFeeds` returns the
error of the marking without calling `fetchFeed`. -/
theorem scrapeFeeds_of_mark_error (env : Env) (q : Queries σ) (w : World σ) (f : Feed)
    (merr : Error)
    (hsel : q.GetNextFeedToFetch w.db = Except.ok f)
    (hmark : (q.MarkFeedFetched w.db { ID := f.ID, UpdatedAt := env.Now w.clock }).1
      = some merr) :
    scrapeFeeds env q w =
      (some merr,
        { db := (q.MarkFeedFetched w.db { ID := f.ID, UpdatedAt := env.Now w.clock }).2
          clock := w.clock + 1
          uuids := w.uuids
          trace := w.trace ++ [Event.GetNextFeedToFetch,
            Event.MarkFeedFetched { ID := f.ID, UpdatedAt := env.Now w.clock }] }) := by
  simp [scrapeFeeds, hsel, hmark, World.log]

/-- What `handlerAggregate` does with an interval argument that is missing,
that does not parse, or that parses to a duration that is not positive. -/
theorem handlerAggregate_of_bad_interval (env : Env) (q : Queries σ) (ticks : Nat)
    (w : World σ) (cmd : Command) :
    (cmd.Args = [] →
      handlerAggregate env q ticks w cmd =
        (Outcome.returned "error: expected time between requests but none specified", w)) ∧
    (∀ a rest err, cmd.Args = a :: rest → env.ParseDuration a = Except.error err →
      handlerAggregate env q ticks w cmd = (Outcome.returned err, w)) ∧
    (∀ a rest d, cmd.Args = a :: rest → env.ParseDuration a = Except.ok d → d ≤ 0 →
      handlerAggregate env q ticks w cmd =
        (Outcome.panicked "non-positive interval for NewTicker",
          w.log (Event.PrintFetchingEvery d))) := by
  refine ⟨?_, ?_, ?_⟩
  · intro h
    simp [handlerAggregate, h, AGGR_EXPECT_ARGS]
  · intro a rest err h hp
    simp [handlerAggregate, h, AGGR_EXPECT_ARGS, hp]
  · intro a rest d h hp hd
    simp [handlerAggregate, h, AGGR_EXPECT_ARGS, hp, hd]

end Lemmas

/-! ## The theorems -/

section Theorems

variable {σ : Type}

/-- C1, as the code has it: in whatever round of the polling loop it happens
(after `n` rounds that returned no error, `n` being at most the number of
ticks that arrive), if in the storage state of that round a feed can be
selected and marked as polled and the fetch of the selected feed fails, then
`scrapeFeeds` returns that error and `handlerAggregate`, started with a
positive interval, returns it in that round: the loop does not go on to the
next tick. -/
theorem C1_fetch_failure_ends_polling (env : Env) (q : Queries σ) (w wn : World σ) (f : Feed)
    (err : Error) (n ticks : Nat) (cmd : Command) (a : String) (rest : List String)
    (d : Duration)
    (hargs : cmd.Args = a :: rest)
    (hdur : env.ParseDuration a = Except.ok d)
    (hpos : 0 < d)
    (hn : n ≤ ticks)
    (hrounds : successfulRounds env q n (w.log (Event.PrintFetchingEvery d)) = some wn)
    (hsel : q.GetNextFeedToFetch wn.db = Except.ok f)
    (hmark : (q.MarkFeedFetched wn.db { ID := f.ID, UpdatedAt := env.Now wn.clock }).1 = none)
    (hfetch : fetchFeed env f.Url = Except.error err) :
    (scrapeFeeds env q (wn.log (Event.Print "Scraping now...\n"))).1 = some err ∧
      (handlerAggregate env q ticks w cmd).1 = Outcome.returned err ∧
      (handlerAggregate env q ticks w cmd).2.trace =
        wn.trace ++ [Event.Print "Scraping now...\n",
          Event.GetNextFeedToFetch,
          Event.MarkFeedFetched { ID := f.ID, UpdatedAt := env.Now wn.clock },
          Event.FetchFeed f.Url] := by
  have hs := scrapeFeeds_of_fetch_error env q (wn.log (Event.Print "Scraping now...\n")) f err
    (by simpa using hsel) (by simpa using hmark) hfetch
  have hp := pollLoop_of_scrape_error env q (ticks - n) wn _ err hs
  have hr := pollLoop_after_rounds env q n ticks _ wn hn hrounds
  have hd : ¬ d ≤ 0 := not_le.mpr hpos
  refine ⟨by rw [hs], ?_⟩
  simp [handlerAggregate, hargs, AGGR_EXPECT_ARGS, hdur, hd, hr, hp]

/-- C1, witness: two feeds, polled every minute; the first round ingests the
first feed, the second round selects the second feed, whose host refuses the
connection, and `handlerAggregate` returns in that second round although
three ticks arrive. -/
theorem C1_fetch_failure_ends_polling_witness :
    (scrapeFeeds demoEnv storageQueries
        ((scrapeFeeds demoEnv storageQueries
          (((startWorld { feeds := [demoFeed 1 "https://a.example/rss",
                                    demoFeed 2 "https://down.example/rss"]
                          posts := [] }).log
            (Event.PrintFetchingEvery 60000000000)).log
            (Event.Print "Scraping now...\n"))).2.log
          (Event.Print "Scraping now...\n"))).1
        = some "dial tcp: connect: connection refused" ∧
      (handlerAggregate demoEnv storageQueries 3
        (startWorld { feeds := [demoFeed 1 "https://a.example/rss",
                                demoFeed 2 "https://down.example/rss"]
                      posts := [] })
        { Name := "agg", Args := ["1m"] }).1
        = Outcome.returned "dial tcp: connect: connection refused" ∧
      (handlerAggregate demoEnv storageQueries 3
        (startWorld { feeds := [demoFeed 1 "https://a.example/rss",
                                demoFeed 2 "https://down.example/rss"]
                      posts := [] })
        { Name := "agg", Args := ["1m"] }).2.trace
        = (scrapeFeeds demoEnv storageQueries
          (((startWorld { feeds := [demoFeed 1 "https://a.example/rss",
                                    demoFeed 2 "https://down.example/rss"]
                          posts := [] }).log
            (Event.PrintFetchingEvery 60000000000)).log
            (Event.Print "Scraping now...\n"))).2.trace ++
          [Event.Print "Scraping now...\n",
            Event.GetNextFeedToFetch,
            Event.MarkFeedFetched { ID := 2, UpdatedAt := 1003 },
            Event.FetchFeed "https://down.example/rss"] :=
  C1_fetch_failure_ends_polling demoEnv storageQueries
    (startWorld { feeds := [demoFeed 1 "https://a.example/rss",
                            demoFeed 2 "https://down.example/rss"]
                  posts := [] })
    (scrapeFeeds demoEnv storageQueries
      (((startWorld { feeds := [demoFeed 1 "https://a.example/rss",
                                demoFeed 2 "https://down.example/rss"]
                      posts := [] }).log
        (Event.PrintFetchingEvery 60000000000)).log
        (Event.Print "Scraping now...\n"))).2
    (demoFeed 2 "https://down.example/rss") "dial tcp: connect: connection refused" 1 3
    { Name := "agg", Args := ["1m"] } "1m" [] 60000000000 rfl rfl (by decide) (by decide)
    rfl rfl rfl rfl

/-- C1, counterexample to the claim as stated: the feed is selected and
marked, its fetch fails, and `handlerAggregate`, with three ticks still to
come, has returned the error after one round instead of waiting for the next
tick. -/
theorem C1_counterexample :
    storageQueries.GetNextFeedToFetch
        { feeds := [demoFeed 1 "https://down.example/rss"], posts := [] }
        = Except.ok (demoFeed 1 "https://down.example/rss") ∧
      (storageQueries.MarkFeedFetched
        { feeds := [demoFeed 1 "https://down.example/rss"], posts := [] }
        { ID := 1, UpdatedAt := 1000 }).1 = none ∧
      fetchFeed demoEnv "https://down.example/rss"
        = Except.error "dial tcp: connect: connection refused" ∧
      (handlerAggregate demoEnv storageQueries 3
        (startWorld { feeds := [demoFeed 1 "https://down.example/rss"], posts := [] })
        { Name := "agg", Args := ["1m"] }).1
        = Outcome.returned "dial tcp: connect: connection refused" ∧
      (handlerAggregate demoEnv storageQueries 3
        (startWorld { feeds := [demoFeed 1 "https://down.example/rss"], posts := [] })
        { Name := "agg", Args := ["1m"] }).1 ≠ Outcome.waiting :=
  ⟨rfl, rfl, rfl, rfl, by decide⟩

/-- C9, the code at the failing input: the intervals `0s` and `-5s` parse to
a zero and to a negative duration, and `handlerAggregate` returns no error
for them: it prints the line about the interval and panics in
`time.NewTicker`, before the polling loop and without a call of
`scrapeFeeds`.  A missing argument and an argument that is no duration return
an error and leave the world as it is. -/
theorem C9_nonpositive_interval_panics :
    demoEnv.ParseDuration "0s" = Except.ok 0 ∧
    handlerAggregate demoEnv storageQueries 3
        (startWorld { feeds := [demoFeed 1 "https://a.example/rss"], posts := [] })
        { Name := "agg", Args := ["0s"] }
      = (Outcome.panicked "non-positive interval for NewTicker",
          (startWorld { feeds := [demoFeed 1 "https://a.example/rss"], posts := [] }).log
            (Event.PrintFetchingEvery 0)) ∧
    (¬ ∃ err, (handlerAggregate demoEnv storageQueries 3
        (startWorld { feeds := [demoFeed 1 "https://a.example/rss"], posts := [] })
        { Name := "agg", Args := ["0s"] }).1 = Outcome.returned err) ∧
    demoEnv.ParseDuration "-5s" = Except.ok (-5000000000) ∧
    handlerAggregate demoEnv storageQueries 3
        (startWorld { feeds := [demoFeed 1 "https://a.example/rss"], posts := [] })
        { Name := "agg", Args := ["-5s"] }
      = (Outcome.panicked "non-positive interval for NewTicker",
          (startWorld { feeds := [demoFeed 1 "https://a.example/rss"], posts := [] }).log
            (Event.PrintFetchingEvery (-5000000000))) ∧
    handlerAggregate demoEnv storageQueries 3
        (startWorld { feeds := [demoFeed 1 "https://a.example/rss"], posts := [] })
        { Name := "agg", Args := [] }
      = (Outcome.returned "error: expected time between requests but none specified",
          startWorld { feeds := [demoFeed 1 "https://a.example/rss"], posts := [] }) ∧
    handlerAggregate demoEnv storageQueries 3
        (startWorld { feeds := [demoFeed 1 "https://a.example/rss"], posts := [] })
        { Name := "agg", Args := ["soon"] }
      = (Outcome.returned "time: invalid duration",
          startWorld { feeds := [demoFeed 1 "https://a.example/rss"], posts := [] }) := by
  have h0 := (handlerAggregate_of_bad_interval demoEnv storageQueries 3
      (startWorld { feeds := [demoFeed 1 "https://a.example/rss"], posts := [] })
      { Name := "agg", Args := ["0s"] }).2.2 "0s" [] 0 rfl rfl (by decide)
  refine ⟨rfl, h0, ?_, rfl, ?_, ?_, ?_⟩
  · rintro ⟨err, h⟩
    rw [h0] at h
    cases h
  · exact (handlerAggregate_of_bad_interval demoEnv storageQueries 3
      (startWorld { feeds := [demoFeed 1 "https://a.example/rss"], posts := [] })
      { Name := "agg", Args := ["-5s"] }).2.2 "-5s" [] (-5000000000) rfl rfl (by decide)
  · exact (handlerAggregate_of_bad_interval demoEnv storageQueries 3
      (startWorld { feeds := [demoFeed 1 "https://a.example/rss"], posts := [] })
      { Name := "agg", Args := [] }).1 rfl
  · exact (handlerAggregate_of_bad_interval demoEnv storageQueries 3
      (startWorld { feeds := [demoFeed 1 "https://a.example/rss"], posts := [] })
      { Name := "agg", Args := ["soon"] }).2.1 "soon" [] "time: invalid duration" rfl rfl

/-- C10, as the code has it: for every markup string that parses and contains
one or more anchor elements, `extractAnchor` returns the href, the target
attribute and the inner text of the last anchor in document order (which is
the first one when the markup has exactly one anchor). -/
theorem C10_extractAnchor_returns_last_anchor (env : Env) (html : String) (doc : Node)
    (hparse : env.NewDocumentFromReader html = Except.ok doc)
    (hfound : Find doc "a" ≠ []) :
    extractAnchor env html = Except.ok (anchorOf ((Find doc "a").getLast hfound)) := by
  simp only [extractAnchor, hparse]
  rw [foldl_overwrite_eq_getLast anchorOf (Find doc "a") _ hfound]

/-- C10, witness: the markup with two anchors; the result is the second. -/
theorem C10_extractAnchor_returns_last_anchor_witness :
    extractAnchor demoEnv twoAnchorDesc =
      Except.ok (anchorOf ((Find twoAnchorDoc "a").getLast (by decide))) :=
  C10_extractAnchor_returns_last_anchor demoEnv twoAnchorDesc twoAnchorDoc rfl (by decide)

/-- C10, counterexample to the claim as stated: the markup parses and has two
anchors; the first one in document order has the href `https://a.example/1`,
and `extractAnchor` returns the second one. -/
theorem C10_counterexample :
    demoEnv.NewDocumentFromReader twoAnchorDesc = Except.ok twoAnchorDoc ∧
      (Find twoAnchorDoc "a").map anchorOf =
        [{ Href := "https://a.example/1", Target := "_self", Text := "one" },
         { Href := "https://a.example/2", Target := "_top", Text := "two" }] ∧
      extractAnchor demoEnv twoAnchorDesc =
        Except.ok { Href := "https://a.example/2", Target := "_top", Text := "two" } ∧
      extractAnchor demoEnv twoAnchorDesc ≠
        Except.ok { Href := "https://a.example/1", Target := "_self", Text := "one" } := by
  refine ⟨rfl, rfl, rfl, ?_⟩
  intro h
  have h0 : extractAnchor demoEnv twoAnchorDesc =
      Except.ok { Href := "https://a.example/2", Target := "_top", Text := "two" } := rfl
  rw [h0] at h
  injection h with h
  injection h with h1 _ _
  exact absurd h1 (by decide)

/-- C4: for every item that is not yet stored, the parameters that
`scrapeFeeds` persists have `Url = X` and `Description = TEXT` when the
description of the item is `<a href="X" target="Y">TEXT</a>` and
`extractAnchor` returns the href and the inner text of that anchor; and they
have the link and the description of the item itself when the description is
plain text (it does not both start with `<a ` and end with `</a>`). -/
theorem C4_persisted_link_and_description (env : Env) (q : Queries σ) (fetchedFeed : Feed)
    (w : World σ) (feedItem : RSSItem) (e0 : Error)
    (hnew : q.GetPostByUrl w.db feedItem.Link = Except.error e0) :
    (∀ X Y TEXT : String,
      feedItem.Description =
        "<a href=\"" ++ X ++ "\" target=\"" ++ Y ++ "\">" ++ TEXT ++ "</a>" →
      extractAnchor env feedItem.Description =
        Except.ok { Href := X, Target := Y, Text := TEXT } →
      (scrapeItem env q fetchedFeed w feedItem).1 = none ∧
      ∃ parms : CreatePostParams,
        Persisted q w (scrapeItem env q fetchedFeed w feedItem).2 parms ∧
        parms.Url = X ∧ parms.Description = TEXT ∧
        parms.Title = feedItem.Title ∧ parms.FeedID = fetchedFeed.ID) ∧
    ((HasPrefix feedItem.Description "<a " && HasSuffix feedItem.Description "</a>") = false →
      (scrapeItem env q fetchedFeed w feedItem).1 = none ∧
      ∃ parms : CreatePostParams,
        Persisted q w (scrapeItem env q fetchedFeed w feedItem).2 parms ∧
        parms.Url = feedItem.Link ∧ parms.Description = feedItem.Description ∧
        parms.Title = feedItem.Title ∧ parms.FeedID = fetchedFeed.ID) := by
  constructor
  · intro X Y TEXT hdesc hanchor
    have hshape : (HasPrefix feedItem.Description "<a " &&
        HasSuffix feedItem.Description "</a>") = true := by
      rw [hdesc]
      exact anchor_shape X Y TEXT
    rw [scrapeItem_of_anchor env q fetchedFeed w feedItem e0 _ hnew hshape hanchor]
    obtain ⟨_, _, _, evs, htr, _⟩ :=
      parsePubDate_spec env (w.log (Event.GetPostByUrl feedItem.Link)) feedItem.PubDate
    refine ⟨rfl, _, createPostStep_persisted env q fetchedFeed w _ _ _
      ([Event.GetPostByUrl feedItem.Link] ++ evs ++ [Event.ExtractAnchor feedItem.Description])
      ?_ ?_, rfl, rfl, rfl, rfl⟩
    · simp [(parsePubDate_spec env (w.log (Event.GetPostByUrl feedItem.Link))
        feedItem.PubDate).1]
    · simp [htr]
  · intro hplain
    rw [scrapeItem_of_plain env q fetchedFeed w feedItem e0 hnew hplain]
    obtain ⟨hdb, _, _, evs, htr, _⟩ :=
      parsePubDate_spec env (w.log (Event.GetPostByUrl feedItem.Link)) feedItem.PubDate
    refine ⟨rfl, _, createPostStep_persisted env q fetchedFeed w _ _ _
      ([Event.GetPostByUrl feedItem.Link] ++ evs) ?_ ?_, rfl, rfl, rfl, rfl⟩
    · simp [hdb]
    · simp [htr]

/-- C4, witness: on an empty storage, an item whose description is an anchor
element with the href `https://a.example/full`, and an item of plain text. -/
theorem C4_persisted_link_and_description_witness :
    ((scrapeItem demoEnv storageQueries (demoFeed 1 "https://a.example/rss")
        (startWorld { feeds := [], posts := [] })
        { Title := "First", Link := "https://a.example/1", Description := anchorDesc
          PubDate := "not-a-date" }).1 = none ∧
      ∃ parms : CreatePostParams,
        Persisted storageQueries (startWorld { feeds := [], posts := [] })
          (scrapeItem demoEnv storageQueries (demoFeed 1 "https://a.example/rss")
            (startWorld { feeds := [], posts := [] })
            { Title := "First", Link := "https://a.example/1", Description := anchorDesc
              PubDate := "not-a-date" }).2 parms ∧
        parms.Url = "https://a.example/full" ∧ parms.Description = "Read more" ∧
        parms.Title = "First" ∧ parms.FeedID = 1) ∧
    ((scrapeItem demoEnv storageQueries (demoFeed 1 "https://a.example/rss")
        (startWorld { feeds := [], posts := [] })
        { Title := "Plain", Link := "https://a.example/2", Description := "plain text"
          PubDate := "not-a-date" }).1 = none ∧
      ∃ parms : CreatePostParams,
        Persisted storageQueries (startWorld { feeds := [], posts := [] })
          (scrapeItem demoEnv storageQueries (demoFeed 1 "https://a.example/rss")
            (startWorld { feeds := [], posts := [] })
            { Title := "Plain", Link := "https://a.example/2", Description := "plain text"
              PubDate := "not-a-date" }).2 parms ∧
        parms.Url = "https://a.example/2" ∧ parms.Description = "plain text" ∧
        parms.Title = "Plain" ∧ parms.FeedID = 1) :=
  ⟨(C4_persisted_link_and_description demoEnv storageQueries
      (demoFeed 1 "https://a.example/rss") (startWorld { feeds := [], posts := [] })
      { Title := "First", Link := "https://a.example/1", Description := anchorDesc
        PubDate := "not-a-date" } "sql: no rows in result set" rfl).1
      "https://a.example/full" "_blank" "Read more" (by decide) rfl,
   (C4_persisted_link_and_description demoEnv storageQueries
      (demoFeed 1 "https://a.example/rss") (startWorld { feeds := [], posts := [] })
      { Title := "Plain", Link := "https://a.example/2", Description := "plain text"
        PubDate := "not-a-date" } "sql: no rows in result set" rfl).2 (by decide)⟩

/-- C5, as the code has it: with `GetPostByUrl` the lookup of the storage
model, which is given the link alone and finds the posts whose stored `Url`
is that link, `scrapeFeeds` skips an item (the body of the loop does nothing
but the lookup and goes on) if and only if the storage holds a post with that
link, whatever the feed of that post; an item whose link is stored only under
another feed is therefore skipped. -/
theorem C5_skips_iff_link_stored_under_any_feed (env : Env) (q : Queries Storage)
    (fetchedFeed : Feed) (w : World Storage) (feedItem : RSSItem)
    (hq : q.GetPostByUrl = Storage.GetPostByUrl) :
    (∃ p ∈ w.db.posts, p.Url = feedItem.Link) ↔
      scrapeItem env q fetchedFeed w feedItem =
        (none, w.log (Event.GetPostByUrl feedItem.Link)) := by
  constructor
  · intro hex
    cases hget : q.GetPostByUrl w.db feedItem.Link with
    | ok p => exact scrapeItem_of_found env q fetchedFeed w feedItem p hget
    | error e0 =>
      rw [hq] at hget
      exact absurd hex ((Storage.GetPostByUrl_error_iff w.db feedItem.Link).mp ⟨e0, hget⟩)
  · intro hskip
    by_contra hex
    obtain ⟨e0, hget⟩ := (Storage.GetPostByUrl_error_iff w.db feedItem.Link).mpr hex
    have hget2 : q.GetPostByUrl w.db feedItem.Link = Except.error e0 := by
      rw [hq]
      exact hget
    have hd := (parsePubDate_ext env (w.log (Event.GetPostByUrl feedItem.Link))
      feedItem.PubDate).length_le
    cases hshape : (HasPrefix feedItem.Description "<a " &&
        HasSuffix feedItem.Description "</a>") with
    | false =>
      rw [scrapeItem_of_plain env q fetchedFeed w feedItem e0 hget2 hshape] at hskip
      have hlen := createPostStep_trace_length env q fetchedFeed
        (parsePubDate env (w.log (Event.GetPostByUrl feedItem.Link)) feedItem.PubDate).2
        feedItem
        (parsePubDate env (w.log (Event.GetPostByUrl feedItem.Link)) feedItem.PubDate).1
      have h2 := congrArg (fun r => r.2.trace.length) hskip
      simp only at h2
      omega
    | true =>
      cases hanchor : extractAnchor env feedItem.Description with
      | error err =>
        rw [scrapeItem_of_anchor_error env q fetchedFeed w feedItem e0 err hget2
          hshape hanchor] at hskip
        have h1 := congrArg (fun r => r.1) hskip
        simp at h1
      | ok anchor =>
        rw [scrapeItem_of_anchor env q fetchedFeed w feedItem e0 anchor hget2
          hshape hanchor] at hskip
        have hlen := createPostStep_trace_length env q fetchedFeed
          ((parsePubDate env (w.log (Event.GetPostByUrl feedItem.Link)) feedItem.PubDate).2.log
            (Event.ExtractAnchor feedItem.Description))
          { feedItem with Description := anchor.Text, Link := anchor.Href }
          (parsePubDate env (w.log (Event.GetPostByUrl feedItem.Link)) feedItem.PubDate).1
        have h2 := congrArg (fun r => r.2.trace.length) hskip
        simp only [World.log_trace, List.length_append, List.length_singleton] at h2 hlen hd
        omega

/-- C5, witness: the link of the item is stored under feed 2, and feed 1 is
polled. -/
theorem C5_skips_iff_link_stored_under_any_feed_witness :
    (∃ p ∈ [demoPost 2 "https://a.example/2"], p.Url = "https://a.example/2") ↔
      scrapeItem demoEnv storageQueries (demoFeed 1 "https://a.example/rss")
        (startWorld { feeds := [], posts := [demoPost 2 "https://a.example/2"] })
        { Title := "Plain", Link := "https://a.example/2", Description := "plain text"
          PubDate := "Mon, 02 Jan 2006 15:04:05 -0700" }
        = (none,
          (startWorld { feeds := [], posts := [demoPost 2 "https://a.example/2"] }).log
            (Event.GetPostByUrl "https://a.example/2")) :=
  C5_skips_iff_link_stored_under_any_feed demoEnv storageQueries
    (demoFeed 1 "https://a.example/rss")
    (startWorld { feeds := [], posts := [demoPost 2 "https://a.example/2"] })
    { Title := "Plain", Link := "https://a.example/2", Description := "plain text"
      PubDate := "Mon, 02 Jan 2006 15:04:05 -0700" } rfl

/-- C5, counterexample to the claim as stated: the link of the item is stored
under feed 2 only, the feed being polled is feed 1, and the item is skipped:
the storage holds no post of feed 1 with that link before or after. -/
theorem C5_counterexample :
    (¬ ∃ p ∈ [demoPost 2 "https://a.example/2"],
        p.Url = "https://a.example/2" ∧ p.FeedID = (demoFeed 1 "https://a.example/rss").ID) ∧
      scrapeItem demoEnv storageQueries (demoFeed 1 "https://a.example/rss")
        (startWorld { feeds := [], posts := [demoPost 2 "https://a.example/2"] })
        { Title := "Plain", Link := "https://a.example/2", Description := "plain text"
          PubDate := "Mon, 02 Jan 2006 15:04:05 -0700" }
        = (none,
          { db := { feeds := [], posts := [demoPost 2 "https://a.example/2"] }
            clock := 0, uuids := 0
            trace := [Event.GetPostByUrl "https://a.example/2"] }) :=
  ⟨by decide, rfl⟩

/-- C7, as the code has it: for every item that is not yet stored, whose
publication date does not parse, and whose hyperlink fallback does not fail
(the description has not the shape of an anchor, or `extractAnchor` reads
it), the body of the loop returns no error, calls `CreatePost` for the item
with `PublishedAt` the zero time, and the loop goes on with the remaining
items. -/
theorem C7_unparsed_date_is_persisted_as_zero (env : Env) (q : Queries σ) (fetchedFeed : Feed)
    (w : World σ) (feedItem : RSSItem) (rest : List RSSItem) (e0 err : Error)
    (hnew : q.GetPostByUrl w.db feedItem.Link = Except.error e0)
    (hdate : env.TimeParse pubDateLayout feedItem.PubDate = Except.error err)
    (hfallback : (HasPrefix feedItem.Description "<a " &&
        HasSuffix feedItem.Description "</a>") = true →
      ∃ anchor, extractAnchor env feedItem.Description = Except.ok anchor) :
    (scrapeItem env q fetchedFeed w feedItem).1 = none ∧
      (∃ parms : CreatePostParams,
        Persisted q w (scrapeItem env q fetchedFeed w feedItem).2 parms ∧
        parms.PublishedAt = Time.zero ∧ parms.Title = feedItem.Title ∧
        parms.FeedID = fetchedFeed.ID) ∧
      scrapeItems env q fetchedFeed w (feedItem :: rest) =
        scrapeItems env q fetchedFeed (scrapeItem env q fetchedFeed w feedItem).2 rest := by
  have hd := parsePubDate_of_error env (w.log (Event.GetPostByUrl feedItem.Link))
    feedItem.PubDate err hdate
  have key : (scrapeItem env q fetchedFeed w feedItem).1 = none ∧
      (∃ parms : CreatePostParams,
        Persisted q w (scrapeItem env q fetchedFeed w feedItem).2 parms ∧
        parms.PublishedAt = Time.zero ∧ parms.Title = feedItem.Title ∧
        parms.FeedID = fetchedFeed.ID) := by
    cases hshape : (HasPrefix feedItem.Description "<a " &&
        HasSuffix feedItem.Description "</a>") with
    | false =>
      rw [scrapeItem_of_plain env q fetchedFeed w feedItem e0 hnew hshape, hd]
      refine ⟨rfl, _, createPostStep_persisted env q fetchedFeed w _ _ _
        [Event.GetPostByUrl feedItem.Link, Event.Print (err ++ "\n")] ?_ ?_, rfl, rfl, rfl⟩
      · rfl
      · simp
    | true =>
      obtain ⟨anchor, hanchor⟩ := hfallback hshape
      rw [scrapeItem_of_anchor env q fetchedFeed w feedItem e0 anchor hnew hshape hanchor, hd]
      refine ⟨rfl, _, createPostStep_persisted env q fetchedFeed w _ _ _
        [Event.GetPostByUrl feedItem.Link, Event.Print (err ++ "\n"),
          Event.ExtractAnchor feedItem.Description] ?_ ?_, rfl, rfl, rfl⟩
      · rfl
      · simp
  exact ⟨key.1, key.2, scrapeItems_cons_of_none env q fetchedFeed w feedItem rest key.1⟩

/-- C7, witness: on an empty storage, an item of plain text and an item whose
description is an anchor element that `extractAnchor` reads, both with the
date `not-a-date` and both followed by a second item. -/
theorem C7_unparsed_date_is_persisted_as_zero_witness :
    ((scrapeItem demoEnv storageQueries (demoFeed 1 "https://b.example/rss")
        (startWorld { feeds := [], posts := [] })
        { Title := "Plain", Link := "https://b.example/2", Description := "plain text"
          PubDate := "not-a-date" }).1 = none ∧
      (∃ parms : CreatePostParams,
        Persisted storageQueries (startWorld { feeds := [], posts := [] })
          (scrapeItem demoEnv storageQueries (demoFeed 1 "https://b.example/rss")
            (startWorld { feeds := [], posts := [] })
            { Title := "Plain", Link := "https://b.example/2", Description := "plain text"
              PubDate := "not-a-date" }).2 parms ∧
        parms.PublishedAt = Time.zero ∧ parms.Title = "Plain" ∧ parms.FeedID = 1) ∧
      scrapeItems demoEnv storageQueries (demoFeed 1 "https://b.example/rss")
          (startWorld { feeds := [], posts := [] })
          ({ Title := "Plain", Link := "https://b.example/2", Description := "plain text"
             PubDate := "not-a-date" } ::
           [{ Title := "Next", Link := "https://b.example/3", Description := "more text"
              PubDate := "not-a-date" }]) =
        scrapeItems demoEnv storageQueries (demoFeed 1 "https://b.example/rss")
          (scrapeItem demoEnv storageQueries (demoFeed 1 "https://b.example/rss")
            (startWorld { feeds := [], posts := [] })
            { Title := "Plain", Link := "https://b.example/2", Description := "plain text"
              PubDate := "not-a-date" }).2
          [{ Title := "Next", Link := "https://b.example/3", Description := "more text"
             PubDate := "not-a-date" }]) ∧
    ((scrapeItem demoEnv storageQueries (demoFeed 1 "https://a.example/rss")
        (startWorld { feeds := [], posts := [] })
        { Title := "First", Link := "https://a.example/1", Description := anchorDesc
          PubDate := "not-a-date" }).1 = none ∧
      (∃ parms : CreatePostParams,
        Persisted storageQueries (startWorld { feeds := [], posts := [] })
          (scrapeItem demoEnv storageQueries (demoFeed 1 "https://a.example/rss")
            (startWorld { feeds := [], posts := [] })
            { Title := "First", Link := "https://a.example/1", Description := anchorDesc
              PubDate := "not-a-date" }).2 parms ∧
        parms.PublishedAt = Time.zero ∧ parms.Title = "First" ∧ parms.FeedID = 1) ∧
      scrapeItems demoEnv storageQueries (demoFeed 1 "https://a.example/rss")
          (startWorld { feeds := [], posts := [] })
          ({ Title := "First", Link := "https://a.example/1", Description := anchorDesc
             PubDate := "not-a-date" } ::
           [{ Title := "Next", Link := "https://a.example/3", Description := "more text"
              PubDate := "not-a-date" }]) =
        scrapeItems demoEnv storageQueries (demoFeed 1 "https://a.example/rss")
          (scrapeItem demoEnv storageQueries (demoFeed 1 "https://a.example/rss")
            (startWorld { feeds := [], posts := [] })
            { Title := "First", Link := "https://a.example/1", Description := anchorDesc
              PubDate := "not-a-date" }).2
          [{ Title := "Next", Link := "https://a.example/3", Description := "more text"
             PubDate := "not-a-date" }]) :=
  ⟨C7_unparsed_date_is_persisted_as_zero demoEnv storageQueries
      (demoFeed 1 "https://b.example/rss") (startWorld { feeds := [], posts := [] })
      { Title := "Plain", Link := "https://b.example/2", Description := "plain text"
        PubDate := "not-a-date" }
      [{ Title := "Next", Link := "https://b.example/3", Description := "more text"
         PubDate := "not-a-date" }]
      "sql: no rows in result set" "parsing time: cannot parse as \"Mon\"" rfl rfl
      (fun h => absurd h (by decide)),
   C7_unparsed_date_is_persisted_as_zero demoEnv storageQueries
      (demoFeed 1 "https://a.example/rss") (startWorld { feeds := [], posts := [] })
      { Title := "First", Link := "https://a.example/1", Description := anchorDesc
        PubDate := "not-a-date" }
      [{ Title := "Next", Link := "https://a.example/3", Description := "more text"
         PubDate := "not-a-date" }]
      "sql: no rows in result set" "parsing time: cannot parse as \"Mon\"" rfl rfl
      (fun _ => ⟨_, rfl⟩)⟩

/-- C7, counterexample to the claim as stated: an item that is not yet stored,
with the date `not-a-date` and the description `rejectedDesc`, on which
`extractAnchor` returns the error of the HTML parser; the loop returns that
error after the line about the date is printed, `CreatePost` is never called,
and the item after it is not reached. -/
theorem C7_counterexample :
    storageQueries.GetPostByUrl { feeds := [], posts := [] } "https://b.example/1"
        = Except.error "sql: no rows in result set" ∧
      demoEnv.TimeParse pubDateLayout "not-a-date"
        = Except.error "parsing time: cannot parse as \"Mon\"" ∧
      scrapeItems demoEnv storageQueries (demoFeed 1 "https://b.example/rss")
        (startWorld { feeds := [], posts := [] })
        [{ Title := "Deep", Link := "https://b.example/1", Description := rejectedDesc
           PubDate := "not-a-date" },
         { Title := "Plain", Link := "https://b.example/2", Description := "plain text"
           PubDate := "not-a-date" }]
        = (some "html: open stack of elements exceeds 512 nodes",
          { db := { feeds := [], posts := [] }, clock := 0, uuids := 0
            trace := [Event.GetPostByUrl "https://b.example/1",
              Event.Print "parsing time: cannot parse as \"Mon\"\n",
              Event.ExtractAnchor rejectedDesc] }) :=
  ⟨rfl, rfl,
    scrapeItems_rejectedDesc (demoFeed 1 "https://b.example/rss")
      (startWorld { feeds := [], posts := [] }) "Deep" "https://b.example/1" _
      "sql: no rows in result set" rfl⟩

/-- C8: in every run of `scrapeFeeds` in which a feed is selected (whatever
the query that selects it), `MarkFeedFetched` is called with the identity of
the selected feed, straight after the selection.  When the marking fails,
`scrapeFeeds` returns its error and `fetchFeed` is not called.  When it
succeeds, with the effect that the storage model gives it, `fetchFeed` is
called after it with the address of that feed, neither is called again in
what follows, and the storage at the end of the run, whether the fetch
fails or the items are ingested, has the feeds it had except that the
feeds with the selected identity have the time of the call as their
last-poll and update time; and when `fetchFeed` fails, `scrapeFeeds`
returns its error, makes no further call and leaves the posts as they
were. -/
theorem C8_claim_before_fetch (env : Env) (q : Queries Storage) (w : World Storage) (f : Feed)
    (hmarked : ∀ db arg, (q.MarkFeedFetched db arg).1 = none →
      (q.MarkFeedFetched db arg).2 = (Storage.MarkFeedFetched db arg).2)
    (hcreate : ∀ db parms, (q.CreatePost db parms).2.feeds = db.feeds)
    (hsel : q.GetNextFeedToFetch w.db = Except.ok f) :
    (∀ merr,
      (q.MarkFeedFetched w.db { ID := f.ID, UpdatedAt := env.Now w.clock }).1 = some merr →
      scrapeFeeds env q w =
        (some merr,
          { db := (q.MarkFeedFetched w.db { ID := f.ID, UpdatedAt := env.Now w.clock }).2
            clock := w.clock + 1
            uuids := w.uuids
            trace := w.trace ++ [Event.GetNextFeedToFetch,
              Event.MarkFeedFetched { ID := f.ID, UpdatedAt := env.Now w.clock }] })) ∧
    ((q.MarkFeedFetched w.db { ID := f.ID, UpdatedAt := env.Now w.clock }).1 = none →
      (∃ rest, (scrapeFeeds env q w).2.trace =
          w.trace ++ [Event.GetNextFeedToFetch,
            Event.MarkFeedFetched { ID := f.ID, UpdatedAt := env.Now w.clock },
            Event.FetchFeed f.Url] ++ rest ∧
          ∀ e ∈ rest, Event.isItemEvent e = true) ∧
      (scrapeFeeds env q w).2.db.feeds =
        w.db.feeds.map (fun g =>
          if g.ID = f.ID then
            { g with LastFetchedAt := some (env.Now w.clock), UpdatedAt := env.Now w.clock }
          else g) ∧
      (∀ err, fetchFeed env f.Url = Except.error err →
        (scrapeFeeds env q w).1 = some err ∧
        (scrapeFeeds env q w).2.trace =
          w.trace ++ [Event.GetNextFeedToFetch,
            Event.MarkFeedFetched { ID := f.ID, UpdatedAt := env.Now w.clock },
            Event.FetchFeed f.Url] ∧
        (scrapeFeeds env q w).2.db.posts = w.db.posts)) := by
  constructor
  · intro merr hmark
    exact scrapeFeeds_of_mark_error env q w f merr hsel hmark
  · intro hmark
    have hdb := hmarked w.db { ID := f.ID, UpdatedAt := env.Now w.clock } hmark
    refine ⟨?_, ?_, ?_⟩
    · cases hfetch : fetchFeed env f.Url with
      | error err =>
        rw [scrapeFeeds_of_fetch_error env q w f err hsel hmark hfetch]
        exact ⟨[], by simp, by simp⟩
      | ok doc =>
        rw [scrapeFeeds_of_fetch_ok env q w f doc hsel hmark hfetch]
        split
        · obtain ⟨evs, h, hevs⟩ := scrapeItems_trace env q f doc.Channel.Item
            { db := (q.MarkFeedFetched w.db
                { ID := f.ID, UpdatedAt := env.Now w.clock }).2
              clock := w.clock + 1
              uuids := w.uuids
              trace := w.trace ++ [Event.GetNextFeedToFetch,
                Event.MarkFeedFetched { ID := f.ID, UpdatedAt := env.Now w.clock },
                Event.FetchFeed f.Url] ++
                [Event.Print ("Items for feed \x27" ++ f.Name ++ "\x27\n")] }
          refine ⟨[Event.Print ("Items for feed \x27" ++ f.Name ++ "\x27\n")] ++ evs, ?_, ?_⟩
          · rw [h]
            simp
          · intro e he
            rcases List.mem_append.mp he with he | he
            · rw [List.mem_singleton.mp he]
              rfl
            · exact hevs e he
        · refine ⟨[Event.Print ("Items for feed \x27" ++ f.Name ++ "\x27\n"),
            Event.Print "\tNo items for this feed.\n"], rfl, ?_⟩
          intro e he
          simp only [List.mem_cons, List.mem_singleton, List.not_mem_nil, or_false] at he
          rcases he with rfl | rfl <;> rfl
    · cases hfetch : fetchFeed env f.Url with
      | error err =>
        rw [scrapeFeeds_of_fetch_error env q w f err hsel hmark hfetch]
        simp only [hdb]
        rfl
      | ok doc =>
        rw [scrapeFeeds_of_fetch_ok env q w f doc hsel hmark hfetch]
        split
        · rw [scrapeItems_feeds env q f hcreate]
          simp only [hdb]
          rfl
        · simp only [hdb]
          rfl
    · intro err hfetch
      rw [scrapeFeeds_of_fetch_error env q w f err hsel hmark hfetch]
      refine ⟨rfl, rfl, ?_⟩
      simp only [hdb]
      rfl

/-- C8, witness: two feeds and one post in the storage.  When the feed that
is selected is served, its item is ingested and the storage at the end has
the selected feed marked; when the feed that is selected is on a host that
refuses the connection, the run ends with the call of `fetchFeed` and the
posts are as they were. -/
theorem C8_claim_before_fetch_witness :
    ((∃ rest, (scrapeFeeds demoEnv storageQueries
          (startWorld { feeds := [demoFeed 1 "https://a.example/rss",
                                  demoFeed 2 "https://down.example/rss"]
                        posts := [demoPost 2 "https://a.example/2"] })).2.trace =
          [] ++ [Event.GetNextFeedToFetch,
            Event.MarkFeedFetched { ID := 1, UpdatedAt := 1000 },
            Event.FetchFeed "https://a.example/rss"] ++ rest ∧
          ∀ e ∈ rest, Event.isItemEvent e = true) ∧
      (scrapeFeeds demoEnv storageQueries
          (startWorld { feeds := [demoFeed 1 "https://a.example/rss",
                                  demoFeed 2 "https://down.example/rss"]
                        posts := [demoPost 2 "https://a.example/2"] })).2.db.feeds =
        [demoFeed 1 "https://a.example/rss", demoFeed 2 "https://down.example/rss"].map
          (fun g =>
            if g.ID = 1 then { g with LastFetchedAt := some 1000, UpdatedAt := 1000 }
            else g)) ∧
    ((scrapeFeeds demoEnv storageQueries
          (startWorld { feeds := [demoFeed 1 "https://down.example/rss",
                                  demoFeed 2 "https://a.example/rss"]
                        posts := [demoPost 2 "https://a.example/2"] })).1 =
        some "dial tcp: connect: connection refused" ∧
      (scrapeFeeds demoEnv storageQueries
          (startWorld { feeds := [demoFeed 1 "https://down.example/rss",
                                  demoFeed 2 "https://a.example/rss"]
                        posts := [demoPost 2 "https://a.example/2"] })).2.trace =
        [] ++ [Event.GetNextFeedToFetch,
          Event.MarkFeedFetched { ID := 1, UpdatedAt := 1000 },
          Event.FetchFeed "https://down.example/rss"] ∧
      (scrapeFeeds demoEnv storageQueries
          (startWorld { feeds := [demoFeed 1 "https://down.example/rss",
                                  demoFeed 2 "https://a.example/rss"]
                        posts := [demoPost 2 "https://a.example/2"] })).2.db.posts =
        [demoPost 2 "https://a.example/2"]) :=
  ⟨⟨((C8_claim_before_fetch demoEnv storageQueries
        (startWorld { feeds := [demoFeed 1 "https://a.example/rss",
                                demoFeed 2 "https://down.example/rss"]
                      posts := [demoPost 2 "https://a.example/2"] })
        (demoFeed 1 "https://a.example/rss") (fun _ _ _ => rfl) (fun _ _ => rfl) rfl).2
        rfl).1,
    ((C8_claim_before_fetch demoEnv storageQueries
        (startWorld { feeds := [demoFeed 1 "https://a.example/rss",
                                demoFeed 2 "https://down.example/rss"]
                      posts := [demoPost 2 "https://a.example/2"] })
        (demoFeed 1 "https://a.example/rss") (fun _ _ _ => rfl) (fun _ _ => rfl) rfl).2
        rfl).2.1⟩,
   ((C8_claim_before_fetch demoEnv storageQueries
        (startWorld { feeds := [demoFeed 1 "https://down.example/rss",
                                demoFeed 2 "https://a.example/rss"]
                      posts := [demoPost 2 "https://a.example/2"] })
        (demoFeed 1 "https://down.example/rss") (fun _ _ _ => rfl) (fun _ _ => rfl) rfl).2
        rfl).2.2 "dial tcp: connect: connection refused" rfl⟩

/-- C2, the code at the failing input: the document has one item, with the
link `https://a.example/1` and a description that is an anchor to
`https://a.example/full`.  The first run of the loop, on an empty storage,
creates one post, stored under the href of the anchor; the second run, on
the same document and for the same feed, looks the item up under its own
link, does not find it, and creates a second post with the same `Url`. -/
theorem C2_second_run_creates_a_duplicate :
    (scrapeItems demoEnv storageQueries (demoFeed 1 "https://a.example/rss")
        (startWorld { feeds := [demoFeed 1 "https://a.example/rss"], posts := [] })
        anchorFeedDoc.Channel.Item).1 = none ∧
    (scrapeItems demoEnv storageQueries (demoFeed 1 "https://a.example/rss")
        (startWorld { feeds := [demoFeed 1 "https://a.example/rss"], posts := [] })
        anchorFeedDoc.Channel.Item).2.db.posts.map (fun p => (p.FeedID, p.Url))
      = [(1, "https://a.example/full")] ∧
    (scrapeItems demoEnv storageQueries (demoFeed 1 "https://a.example/rss")
        (scrapeItems demoEnv storageQueries (demoFeed 1 "https://a.example/rss")
          (startWorld { feeds := [demoFeed 1 "https://a.example/rss"], posts := [] })
          anchorFeedDoc.Channel.Item).2
        anchorFeedDoc.Channel.Item).1 = none ∧
    (scrapeItems demoEnv storageQueries (demoFeed 1 "https://a.example/rss")
        (scrapeItems demoEnv storageQueries (demoFeed 1 "https://a.example/rss")
          (startWorld { feeds := [demoFeed 1 "https://a.example/rss"], posts := [] })
          anchorFeedDoc.Channel.Item).2
        anchorFeedDoc.Channel.Item).2.db.posts.map (fun p => (p.FeedID, p.Url))
      = [(1, "https://a.example/full"), (1, "https://a.example/full")] :=
  ⟨rfl, rfl, rfl, rfl⟩

/-- C3, the code at the failing input: the storage holds one post of feed 1,
with the `Url` `https://a.example/full`, so that no two posts of a feed share
a `Url`; the document polled for feed 1 has an item with another link whose
description is an anchor to `https://a.example/full`.  After `scrapeFeeds`
the storage holds two posts of feed 1 with that `Url`. -/
theorem C3_pass_breaks_link_uniqueness :
    LinkUniquePerFeed [demoPost 1 "https://a.example/full"] ∧
    (scrapeFeeds demoEnv storageQueries
        (startWorld { feeds := [demoFeed 1 "https://a.example/rss"]
                      posts := [demoPost 1 "https://a.example/full"] })).1 = none ∧
    (scrapeFeeds demoEnv storageQueries
        (startWorld { feeds := [demoFeed 1 "https://a.example/rss"]
                      posts := [demoPost 1 "https://a.example/full"] })).2.db.posts.map
        (fun p => (p.FeedID, p.Url))
      = [(1, "https://a.example/full"), (1, "https://a.example/full")] ∧
    ¬ LinkUniquePerFeed
      (scrapeFeeds demoEnv storageQueries
        (startWorld { feeds := [demoFeed 1 "https://a.example/rss"]
                      posts := [demoPost 1 "https://a.example/full"] })).2.db.posts :=
  ⟨by decide, rfl, rfl, by decide⟩

/-- C6, the code at the failing input: the document has an item whose
description is `rejectedDesc`, on which `extractAnchor` returns the error of
the HTML parser, followed by an item of plain text that is not stored.
`scrapeFeeds` returns the error of `extractAnchor`: the second item is never
looked up and no post is created, although the loop run on the second item
alone persists it. -/
theorem C6_anchor_failure_aborts_the_pass :
    scrapeFeeds demoEnv storageQueries
        (startWorld { feeds := [demoFeed 1 "https://b.example/rss"], posts := [] })
      = (some "html: open stack of elements exceeds 512 nodes",
          { db := (Storage.MarkFeedFetched
              { feeds := [demoFeed 1 "https://b.example/rss"], posts := [] }
              { ID := 1, UpdatedAt := 1000 }).2
            clock := 1, uuids := 0
            trace := [Event.GetNextFeedToFetch,
              Event.MarkFeedFetched { ID := 1, UpdatedAt := 1000 },
              Event.FetchFeed "https://b.example/rss",
              Event.Print "Items for feed \x27feed\x27\n",
              Event.GetPostByUrl "https://b.example/1",
              Event.Print "parsing time: cannot parse as \"Mon\"\n",
              Event.ExtractAnchor rejectedDesc] }) ∧
    (scrapeFeeds demoEnv storageQueries
        (startWorld { feeds := [demoFeed 1 "https://b.example/rss"], posts := [] })).2.db.posts
      = [] ∧
    Event.GetPostByUrl "https://b.example/2" ∉
      (scrapeFeeds demoEnv storageQueries
        (startWorld { feeds := [demoFeed 1 "https://b.example/rss"], posts := [] })).2.trace ∧
    (scrapeItems demoEnv storageQueries (demoFeed 1 "https://b.example/rss")
        (startWorld { feeds := [demoFeed 1 "https://b.example/rss"], posts := [] })
        [{ Title := "Plain", Link := "https://b.example/2", Description := "plain text"
           PubDate := "not-a-date" }]).2.db.posts.map (fun p => (p.FeedID, p.Url))
      = [(1, "https://b.example/2")] := by
  have hfetch : fetchFeed demoEnv "https://b.example/rss" = Except.ok rejectedFeedDoc := rfl
  have h : scrapeFeeds demoEnv storageQueries
        (startWorld { feeds := [demoFeed 1 "https://b.example/rss"], posts := [] })
      = (some "html: open stack of elements exceeds 512 nodes",
          { db := (Storage.MarkFeedFetched
              { feeds := [demoFeed 1 "https://b.example/rss"], posts := [] }
              { ID := 1, UpdatedAt := 1000 }).2
            clock := 1, uuids := 0
            trace := [Event.GetNextFeedToFetch,
              Event.MarkFeedFetched { ID := 1, UpdatedAt := 1000 },
              Event.FetchFeed "https://b.example/rss",
              Event.Print "Items for feed \x27feed\x27\n",
              Event.GetPostByUrl "https://b.example/1",
              Event.Print "parsing time: cannot parse as \"Mon\"\n",
              Event.ExtractAnchor rejectedDesc] }) := by
    rw [scrapeFeeds_of_fetch_ok demoEnv storageQueries
      (startWorld { feeds := [demoFeed 1 "https://b.example/rss"], posts := [] })
      (demoFeed 1 "https://b.example/rss") rejectedFeedDoc rfl rfl hfetch]
    rw [if_pos (by decide)]
    exact scrapeItems_rejectedDesc (demoFeed 1 "https://b.example/rss") _ "Deep"
      "https://b.example/1" _ "sql: no rows in result set" rfl
  refine ⟨h, ?_, ?_, rfl⟩
  · rw [h]
    rfl
  · rw [h]
    simp

end Theorems

end Gator
